import Mathlib

/-!
Verification of the AdInfinitum browsing agent (src/main.py).

The Python program drives a Firefox instance through Selenium.  We shallowly
embed its pure control flow: every interaction with the outside world (the
WebDriver, the file system, the clock, the DOM of the AdNauseam extension
pages) is an explicit environment parameter, and each embedded function
returns, besides its Python return value, the updated driver state and a
trace of the externally visible events it performed (navigations, page-load
timeout updates, sleeps, lookups).  Exceptions raised by the driver are
modelled by environment behaviours; a Python function that lets an exception
propagate is embedded with an Option-valued result.
-/

namespace AdInfinitum

/-- Scalar Python values (None, bool, int, str). -/
inductive PyAtom where
  | aNone
  | aBool (b : Bool)
  | aInt (n : Int)
  | aStr (s : String)
  deriving DecidableEq, Repr

/-- Values that can cross the Selenium JavaScript bridge or come out of
json.loads: scalars, lists and string-keyed dicts (containers of scalars;
the program never consumes deeper nesting). -/
inductive PyVal where
  | vNone
  | vBool (b : Bool)
  | vInt (n : Int)
  | vStr (s : String)
  | vList (l : List PyAtom)
  | vDict (d : List (String × PyAtom))
  deriving DecidableEq, Repr

/-- Python truthiness (bool(x)) for the embedded values. -/
def pyTruthy : PyVal → Bool
  | .vNone => false
  | .vBool b => b
  | .vInt n => n != 0
  | .vStr s => s != ""
  | .vList l => !l.isEmpty
  | .vDict d => !d.isEmpty

/-- Python runtime types as passed for the first argument of
BrowserManager.execute_script. -/
inductive PyType where
  | tNone
  | tBool
  | tInt
  | tStr
  | tList
  | tDict
  deriving DecidableEq, Repr

/-- Python isinstance on the embedded values.  A bool is an instance of
int, as in CPython. -/
def isinstance : PyVal → PyType → Bool
  | .vNone, .tNone => true
  | .vBool _, .tBool => true
  | .vBool _, .tInt => true
  | .vInt _, .tInt => true
  | .vStr _, .tStr => true
  | .vList _, .tList => true
  | .vDict _, .tDict => true
  | _, _ => false

/-- Truthiness of a Python value of static type (str or None): both None and
the empty string are falsy. -/
def strTruthy : Option String → Bool
  | none => false
  | some s => s ≠ ""

/-- The configuration fields of the Settings model that the embedded control
flow consumes (src/main.py, class Settings). -/
structure Settings where
  filter_poll_interval : Nat
  filter_poll_timeout : Nat
  session_restart_interval : Nat
  page_load_timeout : Nat
  default_urls : List String
  deriving DecidableEq, Repr

/-- Default Settings values from src/main.py. -/
def defaultSettings : Settings :=
  { filter_poll_interval := 5
    filter_poll_timeout := 300
    session_restart_interval := 25
    page_load_timeout := 45
    default_urls := ["https://www.yahoo.com"] }

/-- Externally visible events performed by the embedded functions. -/
inductive Ev where
  | setTimeout (secs : Nat)
  | nav (url : String)
  | sleep (secs : Nat)
  | prefsLookup
  | debuggerLookup
  | pollFilters
  | heartbeat
  | ctrlReset
  | browserRestart
  | handledError
  | callDiscover
  | callActivate
  | callWait
  | callScrape
  deriving DecidableEq, Repr

/-- State of the BrowserManager: the attached driver, if any, carrying its
current page-load timeout in seconds. -/
structure Browser where
  driver : Option Nat
  deriving DecidableEq, Repr

/-- What the remote driver does when asked to navigate: load the page, time
out (TimeoutException), or raise another WebDriver exception. -/
inductive NavBehavior where
  | ok
  | timedOut
  | raises
  deriving DecidableEq, Repr

/-- What the remote driver does when asked to run a script: raise, or return
a value. -/
inductive ScriptBehavior where
  | raises
  | returns (v : PyVal)
  deriving DecidableEq, Repr

/-- BrowserManager.set_page_load_timeout: a no-op without a driver, otherwise
updates the driver's timeout. -/
def set_page_load_timeout (br : Browser) (secs : Nat) : Browser × List Ev :=
  match br.driver with
  | none => (br, [])
  | some _ => (⟨some secs⟩, [Ev.setTimeout secs])

/-- BrowserManager.get: returns False without a driver; otherwise sets the
page-load timeout to settings.page_load_timeout, navigates, and returns True,
or False on TimeoutException.  A result of none models a non-timeout
WebDriver exception propagating to the caller. -/
def bget (st : Settings) (br : Browser) (url : String) (beh : NavBehavior) :
    Option Bool × Browser × List Ev :=
  match br.driver with
  | none => (some false, br, [])
  | some _ =>
    let br1 : Browser := ⟨some st.page_load_timeout⟩
    let evs := [Ev.setTimeout st.page_load_timeout, Ev.nav url]
    match beh with
    | .ok => (some true, br1, evs)
    | .timedOut => (some false, br1, evs)
    | .raises => (none, br1, evs)

/-- BrowserManager.execute_script: returns None (inner none) without a
driver; otherwise runs the script and returns its result when it is an
instance of the declared return type, and None otherwise.  An outer none
models the driver raising. -/
def execute_script (br : Browser) (return_type : PyType) (beh : ScriptBehavior) :
    Option (Option PyVal) × Browser × List Ev :=
  match br.driver with
  | none => (some none, br, [])
  | some _ =>
    match beh with
    | .raises => (none, br, [])
    | .returns v =>
      if isinstance v return_type then (some (some v), br, []) else (some none, br, [])

/-- BrowserManager.restart: stop the driver and start a fresh one; the
environment decides whether the boot succeeds and the fresh driver's initial
page-load timeout. -/
def browser_restart (bootOk : Bool) (freshT : Nat) (_br : Browser) :
    Bool × Browser × List Ev :=
  (bootOk, if bootOk then ⟨some freshT⟩ else ⟨none⟩, [Ev.browserRestart])

/-- Per-session state of the AdNauseamController. -/
structure ControllerState where
  uuid : Option String
  activated : Bool
  filtersReady : Bool
  deriving DecidableEq, Repr

/-- Controller state established by AdNauseamController.__init__. -/
def initCtrl : ControllerState :=
  { uuid := none, activated := false, filtersReady := false }

/-- AdNauseamController.reset: clears UUID, activation and filter readiness,
re-establishing the initial state. -/
def ctrlReset (_c : ControllerState) : ControllerState := initCtrl

/-- AdNauseamController.ready: bool(self._uuid) and self._activated and
self._filters_ready. -/
def ready (c : ControllerState) : Bool :=
  strTruthy c.uuid && c.activated && c.filtersReady

/-- The permanent Firefox extension id of AdNauseam. -/
def EXTENSION_ID : String := "adnauseam@rednoise.org"

/-- Rendering of a Python str-or-None inside an f-string: None prints as
the four characters "None". -/
def fstr : Option String → String
  | none => "None"
  | some s => s

/-- Outcome of reading prefs.js and extracting the
extensions.webextensions.uuids entry in AdNauseamController._uuid_from_prefs.
The file read, the regex search and json.loads are environment steps: either
the read raises, or the regex finds no uuids entry, or json.loads raises on
the captured group, or a string-to-string map is obtained. -/
inductive PrefsOutcome where
  | readFailure
  | noMatch
  | parseFailure
  | uuidMap (m : List (String × String))
  deriving DecidableEq, Repr

/-- AdNauseamController._uuid_from_prefs: on success looks up EXTENSION_ID
in the parsed uuid map (dict.get, i.e. None when absent); every failure
path returns None. -/
def uuid_from_prefs (env : PrefsOutcome) : Option String :=
  match env with
  | .readFailure => none
  | .noMatch => none
  | .parseFailure => none
  | .uuidMap m => m.lookup EXTENSION_ID

/-- Environment for AdNauseamController._uuid_from_debugger: what the
navigation to about:debugging does, and what the scraping script does. -/
structure DebuggerEnv where
  nav : NavBehavior
  script : ScriptBehavior
  deriving DecidableEq, Repr

/-- AdNauseamController._uuid_from_debugger: navigates to about:debugging,
sleeps 10 seconds, and runs the scraping script through execute_script with
return type str; any exception yields None. -/
def uuid_from_debugger (st : Settings) (br : Browser) (env : DebuggerEnv) :
    Option String × Browser × List Ev :=
  match bget st br "about:debugging#/runtime/this-firefox" env.nav with
  | (none, br1, e1) => (none, br1, e1)
  | (some _, br1, e1) =>
    match execute_script br1 .tStr env.script with
    | (none, br2, e2) => (none, br2, e1 ++ Ev.sleep 10 :: e2)
    | (some r, br2, e2) =>
      let u := match r with
               | some (.vStr s) => some s
               | _ => none
      (u, br2, e1 ++ Ev.sleep 10 :: e2)

/-- AdNauseamController.discover_uuid: returns True at once when a UUID is
already stored; otherwise stores the prefs.js result, falling back to the
about:debugging scrape when that result is falsy, and returns whether the
stored UUID ended up truthy. -/
def discover_uuid (st : Settings) (c : ControllerState) (br : Browser)
    (penv : PrefsOutcome) (denv : DebuggerEnv) :
    Bool × ControllerState × Browser × List Ev :=
  if strTruthy c.uuid then (true, c, br, [])
  else
    let u1 := uuid_from_prefs penv
    let c1 := { c with uuid := u1 }
    if strTruthy u1 then (true, c1, br, [Ev.prefsLookup])
    else
      let (u2, br1, e2) := uuid_from_debugger st br denv
      let c2 := { c1 with uuid := u2 }
      if strTruthy u2 then (true, c2, br1, Ev.prefsLookup :: Ev.debuggerLookup :: e2)
      else (false, c2, br1, Ev.prefsLookup :: Ev.debuggerLookup :: e2)

/-- State of one settings checkbox in the options iframe: absent, or present
with its checked flag. -/
abbrev Checkbox := Option Bool

/-- Document shown inside the options iframe, restricted to the three
checkboxes the activation script touches. -/
structure OptionsDoc where
  hidingAds : Checkbox
  clickingAds : Checkbox
  blockingMalware : Checkbox
  deriving DecidableEq, Repr

/-- DOM context the activation script finds: no iframe element, an iframe
whose document is inaccessible, or the settings document. -/
inductive OptionsDom where
  | noIframe
  | noDoc
  | doc (d : OptionsDoc)
  deriving DecidableEq, Repr

/-- One step of the activation script for a single named checkbox: an absent
element reports "not found"; an unchecked element is clicked (toggling it on)
and reports "activated"; a checked one reports "already on". -/
def clickStep : Checkbox → String × Checkbox
  | none => ("not found", none)
  | some false => ("activated", some true)
  | some true => ("already on", some true)

/-- The JavaScript run by AdNauseamController.activate, embedded: returns the
results dict it would hand back over the bridge together with the document
state it leaves behind. -/
def runActivateScript : OptionsDom → List (String × String) × OptionsDom
  | .noIframe => ([("error", "no iframe found")], .noIframe)
  | .noDoc => ([("error", "cannot access iframe document")], .noDoc)
  | .doc d =>
    let h := clickStep d.hidingAds
    let c := clickStep d.clickingAds
    let b := clickStep d.blockingMalware
    ([("hidingAds", h.1), ("clickingAds", c.1), ("blockingMalware", b.1)],
     .doc ⟨h.2, c.2, b.2⟩)

/-- A string-to-string results object as it arrives over the bridge. -/
def dictVal (kvs : List (String × String)) : PyVal :=
  .vDict (kvs.map fun kv => (kv.1, .aStr kv.2))

/-- Environment for AdNauseamController.activate: navigation behaviour for
the options page, whether the script call raises, and the DOM the script
finds. -/
structure ActivateEnv where
  nav : NavBehavior
  scriptRaises : Bool
  dom : OptionsDom
  deriving DecidableEq, Repr

/-- AdNauseamController.activate: early-returns self._activated when already
activated or when the UUID is falsy; otherwise lowers the page-load timeout
to 20, loads dashboard.html#options.html, sleeps 6 seconds, runs the
activation script with return type dict, marks activation when the result is
a dict without an "error" key, and in every case restores the page-load
timeout to settings.page_load_timeout before returning self._activated. -/
def activate (st : Settings) (c : ControllerState) (br : Browser)
    (env : ActivateEnv) : Bool × ControllerState × Browser × List Ev :=
  if c.activated || !strTruthy c.uuid then (c.activated, c, br, [])
  else
    let url := "moz-extension://" ++ fstr c.uuid ++ "/dashboard.html#options.html"
    let (br1, e1) := set_page_load_timeout br 20
    match bget st br1 url env.nav with
    | (none, br2, e2) =>
      let (br3, e3) := set_page_load_timeout br2 st.page_load_timeout
      (false, c, br3, e1 ++ e2 ++ e3)
    | (some _, br2, e2) =>
      let beh : ScriptBehavior :=
        if env.scriptRaises then .raises
        else .returns (dictVal (runActivateScript env.dom).1)
      match execute_script br2 .tDict beh with
      | (none, br3, e3) =>
        let (br4, e4) := set_page_load_timeout br3 st.page_load_timeout
        (false, c, br4, e1 ++ e2 ++ Ev.sleep 6 :: e3 ++ e4)
      | (some result, br3, e3) =>
        let ok := match result with
                  | some (.vDict kvs) => (kvs.lookup "error").isNone
                  | _ => false
        let c1 := if ok then { c with activated := true } else c
        let (br4, e4) := set_page_load_timeout br3 st.page_load_timeout
        (c1.activated, c1, br4, e1 ++ e2 ++ Ev.sleep 6 :: e3 ++ e4)

/-- Character class of the regex fragment [\d,]. -/
def isDigitOrComma (c : Char) : Bool := c.isDigit || c == ','

/-- Character class of the regex fragment \s over the characters that can
occur in scraped text. -/
def isSpaceChar (c : Char) : Bool :=
  c == ' ' || c == '\t' || c == '\n' || c == '\r' ||
  c == Char.ofNat 11 || c == Char.ofNat 12

/-- Attempt to match ([\d,]+)\s+network filters at the head of the character
list, returning the captured group.  Because the classes [\d,] and \s and the
literal are pairwise head-disjoint, the greedy match without backtracking
coincides with the regex engine's behaviour. -/
def matchCountAt (cs : List Char) : Option (List Char) :=
  let run := cs.takeWhile isDigitOrComma
  if run.isEmpty then none
  else
    let rest := cs.drop run.length
    let sp := rest.takeWhile isSpaceChar
    if sp.isEmpty then none
    else if ("network filters".toList).isPrefixOf (rest.drop sp.length) then some run
    else none

/-- The leftmost-position search of re.search for the pattern above. -/
def searchCount : List Char → Option (List Char)
  | [] => none
  | c :: cs =>
    match matchCountAt (c :: cs) with
    | some g => some g
    | none => searchCount cs

/-- Decimal value of a digit list, as computed by int() on an all-digit
string. -/
def natOfDigits (l : List Char) : Nat :=
  l.foldl (fun a c => 10 * a + (c.toNat - 48)) 0

/-- Combination of re.search, the comma removal and int() in
AdNauseamController._get_filter_count: none when the pattern does not occur
or when the captured group holds no digit (then int() raises, which the
enclosing except turns into the 0 path). -/
def parseFilterCount (s : String) : Option Nat :=
  match searchCount s.toList with
  | none => none
  | some g =>
    let ds := g.filter (fun c => c != ',')
    if ds.isEmpty then none else some (natOfDigits ds)

/-- Environment for one call of AdNauseamController._get_filter_count. -/
structure GFCEnv where
  nav : NavBehavior
  script : ScriptBehavior
  deriving DecidableEq, Repr

/-- AdNauseamController._get_filter_count: lowers the page-load timeout to
20, loads dashboard.html#3p-filters.html, sleeps 3 seconds, reads the prompt
text with return type str, and parses the network-filter count from it; every
failure path yields 0, and the page-load timeout is restored to
settings.page_load_timeout on every path. -/
def get_filter_count (st : Settings) (uuid : Option String) (br : Browser)
    (env : GFCEnv) : Nat × Browser × List Ev :=
  let url := "moz-extension://" ++ fstr uuid ++ "/dashboard.html#3p-filters.html"
  let (br1, e1) := set_page_load_timeout br 20
  match bget st br1 url env.nav with
  | (none, br2, e2) =>
    let (br3, e3) := set_page_load_timeout br2 st.page_load_timeout
    (0, br3, e1 ++ e2 ++ e3)
  | (some _, br2, e2) =>
    match execute_script br2 .tStr env.script with
    | (none, br3, e3) =>
      let (br4, e4) := set_page_load_timeout br3 st.page_load_timeout
      (0, br4, e1 ++ e2 ++ Ev.sleep 3 :: e3 ++ e4)
    | (some t, br3, e3) =>
      let n := match t with
               | some (.vStr s) =>
                 if s != "" then
                   match parseFilterCount s with
                   | some k => k
                   | none => 0
                 else 0
               | _ => 0
      let (br4, e4) := set_page_load_timeout br3 st.page_load_timeout
      (n, br4, e1 ++ e2 ++ Ev.sleep 3 :: e3 ++ e4)

/-- Environment for AdNauseamController.wait_for_filters: t0 is the clock
value read when the deadline is computed, timeAt i the clock value read at
the i-th loop-head check, and polls i the driver behaviour of the i-th
_get_filter_count call. -/
structure WaitEnv where
  t0 : Nat
  timeAt : Nat → Nat
  polls : Nat → GFCEnv

/-- The while loop of wait_for_filters.  The Python loop has no iteration
bound and terminates because real time advances by at least
filter_poll_interval per iteration; the embedding makes the iteration count
explicit through a fuel argument, and wait_for_filters passes
filter_poll_timeout + 1, which the clock hypotheses of the theorems prove is
never exhausted. -/
def waitLoopAux (st : Settings) (uuid : Option String) (env : WaitEnv)
    (deadline : Nat) : Nat → Nat → Browser → Bool × Browser × List Ev
  | 0, _, br => (false, br, [])
  | fuel+1, i, br =>
    if env.timeAt i < deadline then
      let (cnt, br1, e1) := get_filter_count st uuid br (env.polls i)
      if 0 < cnt then (true, br1, Ev.pollFilters :: e1)
      else
        let (b, br2, e2) := waitLoopAux st uuid env deadline fuel (i+1) br1
        (b, br2, Ev.pollFilters :: e1 ++ Ev.sleep st.filter_poll_interval :: e2)
    else (false, br, [])

/-- AdNauseamController.wait_for_filters: early-returns self._filters_ready
when filters are already marked ready or the UUID is falsy; otherwise polls
_get_filter_count, sleeping filter_poll_interval seconds after each zero
count, until a positive count (mark ready, return True) or until the clock
passes t0 + filter_poll_timeout (return False). -/
def wait_for_filters (st : Settings) (c : ControllerState) (br : Browser)
    (env : WaitEnv) : Bool × ControllerState × Browser × List Ev :=
  if c.filtersReady then (true, c, br, [])
  else if !strTruthy c.uuid then (false, c, br, [])
  else
    let deadline := env.t0 + st.filter_poll_timeout
    match waitLoopAux st c.uuid env deadline (st.filter_poll_timeout + 1) 0 br with
    | (true, br1, evs) => (true, { c with filtersReady := true }, br1, evs)
    | (false, br1, evs) => (false, c, br1, evs)

/-- Text content found by the vault script for the three stat selectors
(None when the element is absent). -/
structure VaultDom where
  clicked : Option String
  collected : Option String
  showing : Option String
  deriving DecidableEq, Repr

/-- A scraped text as a Python value: null or a string. -/
def atomOfText : Option String → PyAtom
  | none => .aNone
  | some s => .aStr s

/-- The stats object built by the vault script. -/
def vaultVal (d : VaultDom) : PyVal :=
  .vDict [("clicked", atomOfText d.clicked),
          ("collected", atomOfText d.collected),
          ("showing", atomOfText d.showing)]

/-- Python x or dflt applied to a dict.get result whose values are scraped
texts (strings or null): the default is taken when the key is absent, null,
or the empty string. -/
def textOrDefault (v : Option PyAtom) (dflt : String) : String :=
  match v with
  | some (.aStr s) => if s != "" then s else dflt
  | _ => dflt

/-- Environment for AdNauseamController.scrape_vault. -/
structure ScrapeEnv where
  nav : NavBehavior
  scriptRaises : Bool
  dom : VaultDom
  deriving DecidableEq, Repr

/-- The placeholder triple scrape_vault falls back to. -/
def vaultPlaceholders : String × String × String :=
  ("clicked ?", "? ads collected", "?")

/-- AdNauseamController.scrape_vault: placeholders when the UUID is falsy;
otherwise lowers the page-load timeout to 20, loads vault.html, sleeps 4
seconds, reads the stats dict with return type dict, and returns the three
stats with per-component fallback through Python or; placeholders on a None
result or any exception; the page-load timeout is restored on every path
through the try block. -/
def scrape_vault (st : Settings) (c : ControllerState) (br : Browser)
    (env : ScrapeEnv) : (String × String × String) × Browser × List Ev :=
  if !strTruthy c.uuid then (vaultPlaceholders, br, [])
  else
    let url := "moz-extension://" ++ fstr c.uuid ++ "/vault.html"
    let (br1, e1) := set_page_load_timeout br 20
    match bget st br1 url env.nav with
    | (none, br2, e2) =>
      let (br3, e3) := set_page_load_timeout br2 st.page_load_timeout
      (vaultPlaceholders, br3, e1 ++ e2 ++ e3)
    | (some _, br2, e2) =>
      let beh : ScriptBehavior :=
        if env.scriptRaises then .raises else .returns (vaultVal env.dom)
      match execute_script br2 .tDict beh with
      | (none, br3, e3) =>
        let (br4, e4) := set_page_load_timeout br3 st.page_load_timeout
        (vaultPlaceholders, br4, e1 ++ e2 ++ Ev.sleep 4 :: e3 ++ e4)
      | (some stats, br3, e3) =>
        let out := match stats with
                   | some (.vDict kvs) =>
                     (textOrDefault (kvs.lookup "clicked") "clicked ?",
                      textOrDefault (kvs.lookup "collected") "? ads collected",
                      textOrDefault (kvs.lookup "showing") "?")
                   | _ => vaultPlaceholders
        let (br4, e4) := set_page_load_timeout br3 st.page_load_timeout
        (out, br4, e1 ++ e2 ++ Ev.sleep 4 :: e3 ++ e4)

/-- State of the urls.json file as AdInfinitum._load_urls observes it:
absent, unreadable (read_text or json.loads raises), or decoding to a JSON
value. -/
inductive UrlsFile where
  | absent
  | unreadable
  | decoded (v : PyVal)
  deriving DecidableEq, Repr

/-- Value of settings.default_urls as a Python value. -/
def defaultUrlsVal (st : Settings) : PyVal :=
  .vList (st.default_urls.map .aStr)

/-- AdInfinitum._load_urls: the decoded value when the file exists, decodes,
and the decoded value is truthy; settings.default_urls otherwise. -/
def load_urls (st : Settings) (f : UrlsFile) : PyVal :=
  match f with
  | .absent => defaultUrlsVal st
  | .unreadable => defaultUrlsVal st
  | .decoded v => if pyTruthy v then v else defaultUrlsVal st

/-- Environment for AdInfinitum._browse: the chosen URL, the navigation
behaviour, per-step scroll script behaviour and pause lengths, and the drawn
number of scroll steps. -/
structure BrowseEnv where
  url : String
  nav : NavBehavior
  scrolls : Nat → ScriptBehavior
  pauses : Nat → Nat
  steps : Nat

/-- The scroll loop of AdInfinitum._browse: each step runs the scroll script,
sleeps, and touches the heartbeat; a step whose script call raises lets the
exception propagate (result false). -/
def scrollLoop (br : Browser) (scrolls : Nat → ScriptBehavior)
    (pauses : Nat → Nat) : Nat → Nat → Bool × List Ev
  | _, 0 => (true, [])
  | j, n+1 =>
    match execute_script br .tStr (scrolls j) with
    | (none, _, e) => (false, e)
    | (some _, _, e) =>
      let (ok, evs) := scrollLoop br scrolls pauses (j+1) n
      (ok, e ++ Ev.sleep (pauses j) :: Ev.heartbeat :: evs)

/-- AdInfinitum._browse: navigate (a TimeoutException inside get is
swallowed, any other driver exception propagates), touch the heartbeat, then
scroll.  The Bool result records whether the call completed without a
propagating exception. -/
def adBrowse (st : Settings) (br : Browser) (env : BrowseEnv) :
    Bool × Browser × List Ev :=
  match bget st br env.url env.nav with
  | (none, br1, e1) => (false, br1, e1)
  | (some _, br1, e1) =>
    let (ok, evs) := scrollLoop br1 env.scrolls env.pauses 0 env.steps
    (ok, br1, e1 ++ Ev.heartbeat :: evs)

/-- Environment for AdInfinitum._setup. -/
structure SetupEnv where
  prefs : PrefsOutcome
  dbg : DebuggerEnv
  act : ActivateEnv
  wait : WaitEnv

/-- AdInfinitum._setup: returns False right after a failed UUID discovery;
otherwise runs activation and filter waiting and returns True. -/
def setup (st : Settings) (c : ControllerState) (br : Browser)
    (env : SetupEnv) : Bool × ControllerState × Browser × List Ev :=
  match discover_uuid st c br env.prefs env.dbg with
  | (false, c1, br1, e1) => (false, c1, br1, Ev.callDiscover :: e1)
  | (true, c1, br1, e1) =>
    let (_, c2, br2, e2) := activate st c1 br1 env.act
    let (_, c3, br3, e3) := wait_for_filters st c2 br2 env.wait
    (true, c3, br3, Ev.callDiscover :: e1 ++ Ev.callActivate :: e2 ++ Ev.callWait :: e3)

/-- Environment for AdInfinitum._restart. -/
structure RestartEnv where
  bootOk : Bool
  freshT : Nat
  setupEnv : SetupEnv

/-- AdInfinitum._restart: restart the browser, reset the controller, re-run
the startup checks. -/
def adRestart (st : Settings) (c : ControllerState) (br : Browser)
    (env : RestartEnv) : ControllerState × Browser × List Ev :=
  let (_, br1, e1) := browser_restart env.bootOk env.freshT br
  let c1 := ctrlReset c
  let (_, c2, br2, e2) := setup st c1 br1 env.setupEnv
  (c2, br2, e1 ++ Ev.ctrlReset :: e2)

/-- State carried by the main loop of AdInfinitum.run. -/
structure OrchState where
  sessionCount : Nat
  ctrl : ControllerState
  browser : Browser
  deriving DecidableEq, Repr

/-- Points of the loop body at which the environment may inject an Exception
(standing for the unmodelled failure avenues: random.choice on an empty seed
list, heartbeat I/O, driver teardown inside the controller calls, process
management inside the scheduled restart). -/
inductive Phase where
  | choice
  | browse
  | setupPhase
  | scrape
  | restartPhase
  deriving DecidableEq, Repr

/-- Environment for one iteration of the run() loop.  signal models a
SIGINT/SIGTERM arriving during this iteration: its handler calls sys.exit,
whose SystemExit is not an Exception and escapes the except clause. -/
structure StepEnv where
  signal : Bool
  inject : Option Phase
  browseEnv : BrowseEnv
  setupEnv : SetupEnv
  scrapeEnv : ScrapeEnv
  restartEnv : RestartEnv
  handlerBootOk : Bool
  handlerFreshT : Nat

/-- The except-Exception handler of the run() loop: log, restart the
browser, reset the controller, and continue with the next session. -/
def handleLoopError (env : StepEnv) (count : Nat) (c : ControllerState)
    (br : Browser) (evs : List Ev) : Option OrchState × List Ev :=
  let (_, br1, e1) := browser_restart env.handlerBootOk env.handlerFreshT br
  (some ⟨count, ctrlReset c, br1⟩, evs ++ Ev.handledError :: e1 ++ [Ev.ctrlReset])

/-- Tail of the run() loop body after browsing and setup: scrape the vault,
then perform the scheduled restart when the session counter is a multiple of
session_restart_interval. -/
def runTail (st : Settings) (env : StepEnv) (n : Nat) (c : ControllerState)
    (br : Browser) (evs : List Ev) : Option OrchState × List Ev :=
  if env.inject = some .scrape then handleLoopError env n c br evs
  else
    let (_, br3, evV) := scrape_vault st c br env.scrapeEnv
    if n % st.session_restart_interval = 0 then
      if env.inject = some .restartPhase then
        handleLoopError env n c br3 (evs ++ Ev.callScrape :: evV)
      else
        let (c3, br4, evR) := adRestart st c br3 env.restartEnv
        (some ⟨n, c3, br4⟩, evs ++ Ev.callScrape :: evV ++ evR)
    else
      (some ⟨n, c, br3⟩, evs ++ Ev.callScrape :: evV)

/-- One iteration of the while-True loop of AdInfinitum.run: choose a URL,
bump the session counter, browse, run setup when the controller is not
ready, scrape the vault, restart on schedule; any Exception along the way is
caught by the handler, while a SystemExit from the signal handler escapes
(result none). -/
def runStep (st : Settings) (σ : OrchState) (env : StepEnv) :
    Option OrchState × List Ev :=
  if env.signal then (none, [])
  else if env.inject = some .choice then
    handleLoopError env σ.sessionCount σ.ctrl σ.browser []
  else
    let n := σ.sessionCount + 1
    if env.inject = some .browse then handleLoopError env n σ.ctrl σ.browser []
    else
      match adBrowse st σ.browser env.browseEnv with
      | (false, br1, evB) => handleLoopError env n σ.ctrl br1 evB
      | (true, br1, evB) =>
        if ready σ.ctrl then runTail st env n σ.ctrl br1 evB
        else if env.inject = some .setupPhase then
          handleLoopError env n σ.ctrl br1 evB
        else
          let (_, c2, br2, evS) := setup st σ.ctrl br1 env.setupEnv
          runTail st env n c2 br2 (evB ++ evS)

/-- The prelude of AdInfinitum.run: boot the browser, and call sys.exit(1)
when the boot fails. -/
def runBoot (bootOk : Bool) (freshT : Nat) : Except Nat Browser :=
  if bootOk then .ok ⟨some freshT⟩ else .error 1

/-- Python text or dflt for a scraped stat: the scraped text when it is a
non-empty string, the default when the element was absent (null) or its text
was empty. -/
def fallbackText (v : Option String) (dflt : String) : String :=
  match v with
  | some s => if s == "" then dflt else s
  | none => dflt

/-!  Theorems for the claims. -/

/-- C9: AdNauseamController.ready is True iff the stored UUID is a non-empty
value and _activated and _filters_ready both hold; __init__ and reset() both
establish the not-ready state (UUID None, flags False), so ready is False
after construction and after every reset(). -/
theorem C9_ready_characterisation (c : ControllerState) :
    (ready c = true ↔
      (∃ u, c.uuid = some u ∧ u ≠ "") ∧ c.activated = true ∧ c.filtersReady = true) ∧
    ctrlReset c = initCtrl ∧
    initCtrl.uuid = none ∧ initCtrl.activated = false ∧ initCtrl.filtersReady = false ∧
    ready initCtrl = false ∧ ready (ctrlReset c) = false := by
  refine ⟨?_, rfl, rfl, rfl, rfl, rfl, rfl⟩
  cases hc : c.uuid with
  | none => simp [ready, strTruthy, hc]
  | some u => simp [ready, strTruthy, hc, Bool.and_eq_true, and_assoc]

/-- C8: BrowserManager.execute_script never returns a non-None value that is
not an instance of the declared return type: without a driver it returns
None, on an isinstance mismatch it returns None, and otherwise it returns
the driver's result unchanged. -/
theorem C8_execute_script_typed (br : Browser) (ty : PyType) (beh : ScriptBehavior) :
    (∀ v br2 evs, execute_script br ty beh = (some (some v), br2, evs) →
       isinstance v ty = true) ∧
    (br.driver = none → execute_script br ty beh = (some none, br, [])) ∧
    (∀ t v, br = ⟨some t⟩ → beh = .returns v → isinstance v ty = false →
       execute_script br ty beh = (some none, br, [])) ∧
    (∀ t v, br = ⟨some t⟩ → beh = .returns v → isinstance v ty = true →
       execute_script br ty beh = (some (some v), br, [])) := by
  obtain ⟨d⟩ := br
  refine ⟨?_, ?_, ?_, ?_⟩
  · intro v br2 evs h
    cases d with
    | none => simp [execute_script] at h
    | some t =>
      cases beh with
      | raises => simp [execute_script] at h
      | returns w =>
        by_cases hi : isinstance w ty = true
        · simp only [execute_script, hi, if_pos, Prod.mk.injEq,
            Option.some.injEq] at h
          obtain ⟨h1, -⟩ := h
          subst h1
          exact hi
        · have hi2 : isinstance w ty = false := by simpa using hi
          simp [execute_script, hi2] at h
  · intro hd; subst hd; rfl
  · rintro t v h rfl hi
    injection h with h; subst h
    simp [execute_script, hi]
  · rintro t v h rfl hi
    injection h with h; subst h
    simp [execute_script, hi]

/-- Witness for C8 at concrete inputs. -/
theorem C8_execute_script_typed_witness :
    execute_script ⟨some 45⟩ .tStr (.returns (.vInt 42)) = (some none, ⟨some 45⟩, []) :=
  (C8_execute_script_typed ⟨some 45⟩ .tStr (.returns (.vInt 42))).2.2.1
    45 (.vInt 42) rfl rfl (by decide)

/-- C7 counterexample: a urls.json decoding to a truthy non-list JSON value
(here an object) is returned by _load_urls instead of settings.default_urls,
so "returns default_urls in every other case" fails as stated. -/
theorem C7_load_urls_counterexample :
    load_urls defaultSettings (.decoded (.vDict [("a", .aStr "b")]))
      = .vDict [("a", .aStr "b")] ∧
    (.vDict [("a", .aStr "b")] : PyVal) ≠ defaultUrlsVal defaultSettings := by
  exact ⟨rfl, by decide⟩

/-- C7 amended: _load_urls returns the decoded JSON value whenever the file
exists, decodes, and the decoded value is truthy (in particular every
non-empty list), and returns settings.default_urls when the file is absent,
unreadable or malformed, or decodes to a falsy value; it never raises. -/
theorem C7_load_urls_amended (st : Settings) :
    load_urls st .absent = defaultUrlsVal st ∧
    load_urls st .unreadable = defaultUrlsVal st ∧
    (∀ v, pyTruthy v = true → load_urls st (.decoded v) = v) ∧
    (∀ v, pyTruthy v = false → load_urls st (.decoded v) = defaultUrlsVal st) := by
  refine ⟨rfl, rfl, ?_, ?_⟩
  · intro v h; simp [load_urls, h]
  · intro v h; simp [load_urls, h]

/-- Witness for C7 at concrete inputs. -/
theorem C7_load_urls_amended_witness :
    load_urls defaultSettings (.decoded (.vList [.aStr "https://a.com"]))
      = .vList [.aStr "https://a.com"] :=
  (C7_load_urls_amended defaultSettings).2.2.1 (.vList [.aStr "https://a.com"]) (by decide)

/-- C4 counterexample: a stat that is present in the returned dict but equal
to the empty string (a possible innerText) is replaced by its placeholder,
so "the present stats are returned unchanged" fails as stated. -/
theorem C4_scrape_vault_counterexample :
    (scrape_vault defaultSettings ⟨some "u", false, false⟩ ⟨some 45⟩
        ⟨.ok, false, ⟨some "", some "9 ads collected", some "4"⟩⟩).1
      = ("clicked ?", "9 ads collected", "4") ∧
    ("clicked ?" : String) ≠ "" := by
  exact ⟨rfl, by decide⟩

/-- C4 amended: scrape_vault never raises and always returns a triple of
strings; with a falsy UUID, on a None script result, or on any driver
exception it returns the placeholder triple, and when the script returns a
dict each stat that is missing, null, or the empty string is replaced
component-wise by its placeholder while non-empty present stats are returned
unchanged. -/
theorem C4_scrape_vault_amended (st : Settings) (c : ControllerState)
    (br : Browser) (env : ScrapeEnv) (t : Nat) :
    (strTruthy c.uuid = false → scrape_vault st c br env = (vaultPlaceholders, br, [])) ∧
    (strTruthy c.uuid = true → br = ⟨none⟩ →
       (scrape_vault st c br env).1 = vaultPlaceholders) ∧
    (strTruthy c.uuid = true → br = ⟨some t⟩ → env.nav = .raises →
       (scrape_vault st c br env).1 = vaultPlaceholders) ∧
    (strTruthy c.uuid = true → br = ⟨some t⟩ → env.scriptRaises = true →
       (scrape_vault st c br env).1 = vaultPlaceholders) ∧
    (strTruthy c.uuid = true → br = ⟨some t⟩ → env.nav ≠ .raises →
       env.scriptRaises = false →
       (scrape_vault st c br env).1 =
         (fallbackText env.dom.clicked "clicked ?",
          fallbackText env.dom.collected "? ads collected",
          fallbackText env.dom.showing "?")) := by
  obtain ⟨nav, sr, cl, co, sh⟩ := env
  refine ⟨?_, ?_, ?_, ?_, ?_⟩
  · intro h; simp [scrape_vault, h]
  · rintro h rfl
    simp only [scrape_vault, h, Bool.not_true, Bool.false_eq_true, if_false]
    rfl
  · rintro h rfl rfl
    simp only [scrape_vault, h, Bool.not_true, Bool.false_eq_true, if_false]
    rfl
  · rintro h rfl rfl
    cases nav <;>
      simp [scrape_vault, h, set_page_load_timeout, bget, execute_script]
  · rintro h rfl hnav hsr
    subst hsr
    have hfb : ∀ (v : Option String) (d : String),
        textOrDefault (some (atomOfText v)) d = fallbackText v d := by
      intro v d
      cases v with
      | none => rfl
      | some s => simp [textOrDefault, atomOfText, fallbackText]
    cases nav with
    | ok =>
      simp [scrape_vault, h, set_page_load_timeout, bget, execute_script,
        isinstance, vaultVal, List.lookup, hfb]
    | timedOut =>
      simp [scrape_vault, h, set_page_load_timeout, bget, execute_script,
        isinstance, vaultVal, List.lookup, hfb]
    | raises => exact absurd rfl hnav

/-- Witness for C4 amended at concrete inputs. -/
theorem C4_scrape_vault_amended_witness :
    (scrape_vault defaultSettings ⟨some "u", false, false⟩ ⟨some 45⟩
        ⟨.ok, false, ⟨some "clicked 7", none, some "4"⟩⟩).1
      = ("clicked 7", "? ads collected", "4") :=
  (C4_scrape_vault_amended defaultSettings ⟨some "u", false, false⟩ ⟨some 45⟩
      ⟨.ok, false, ⟨some "clicked 7", none, some "4"⟩⟩ 45).2.2.2.2
    (by decide) rfl (by decide) rfl

/-- C2: discover_uuid consults prefs.js first; the about:debugging scrape is
attempted only when the prefs.js lookup yields no (truthy) UUID; it returns
True iff a UUID was obtained by either method or was already known; and once
it has returned True, every later call returns True without re-running
either lookup. -/
theorem C2_discover_uuid (st : Settings) (c : ControllerState) (br : Browser)
    (penv : PrefsOutcome) (denv : DebuggerEnv) :
    (strTruthy c.uuid = true → discover_uuid st c br penv denv = (true, c, br, [])) ∧
    (strTruthy c.uuid = false → strTruthy (uuid_from_prefs penv) = true →
       discover_uuid st c br penv denv =
         (true, { c with uuid := uuid_from_prefs penv }, br, [Ev.prefsLookup])) ∧
    (strTruthy c.uuid = false → strTruthy (uuid_from_prefs penv) = false →
       discover_uuid st c br penv denv =
         (strTruthy (uuid_from_debugger st br denv).1,
          { c with uuid := (uuid_from_debugger st br denv).1 },
          (uuid_from_debugger st br denv).2.1,
          Ev.prefsLookup :: Ev.debuggerLookup :: (uuid_from_debugger st br denv).2.2)) ∧
    ((discover_uuid st c br penv denv).1 = true ↔
       strTruthy (discover_uuid st c br penv denv).2.1.uuid = true) ∧
    ((discover_uuid st c br penv denv).1 = true →
       ∀ penv2 denv2 br2,
         discover_uuid st (discover_uuid st c br penv denv).2.1 br2 penv2 denv2 =
           (true, (discover_uuid st c br penv denv).2.1, br2, [])) := by
  have hearly : ∀ (c2 : ControllerState) (br2 : Browser) penv2 denv2,
      strTruthy c2.uuid = true →
      discover_uuid st c2 br2 penv2 denv2 = (true, c2, br2, []) := by
    intro c2 br2 penv2 denv2 h
    simp [discover_uuid, h]
  have hiff : (discover_uuid st c br penv denv).1 = true ↔
      strTruthy (discover_uuid st c br penv denv).2.1.uuid = true := by
    by_cases ha : strTruthy c.uuid = true
    · simp [discover_uuid, ha]
    · have ha2 : strTruthy c.uuid = false := by simpa using ha
      by_cases hb : strTruthy (uuid_from_prefs penv) = true
      · simp [discover_uuid, ha2, hb]
      · have hb2 : strTruthy (uuid_from_prefs penv) = false := by simpa using hb
        by_cases hd : strTruthy (uuid_from_debugger st br denv).1 = true
        · simp [discover_uuid, ha2, hb2, hd]
        · have hd2 : strTruthy (uuid_from_debugger st br denv).1 = false := by
            simpa using hd
          simp [discover_uuid, ha2, hb2, hd2]
  refine ⟨fun h => hearly c br penv denv h, ?_, ?_, hiff, ?_⟩
  · intro h h1; simp [discover_uuid, h, h1]
  · intro h h1
    by_cases hd : strTruthy (uuid_from_debugger st br denv).1 = true
    · simp [discover_uuid, h, h1, hd]
    · have hd2 : strTruthy (uuid_from_debugger st br denv).1 = false := by simpa using hd
      simp [discover_uuid, h, h1, hd2]
  · intro h penv2 denv2 br2
    exact hearly _ br2 penv2 denv2 (hiff.mp h)

/-- Witness for C2 at concrete inputs: a fresh controller whose prefs.js
holds the extension UUID. -/
theorem C2_discover_uuid_witness :
    discover_uuid defaultSettings initCtrl ⟨some 45⟩
        (.uuidMap [(EXTENSION_ID, "abc-123")]) ⟨.ok, .returns .vNone⟩ =
      (true, { initCtrl with uuid := some "abc-123" }, ⟨some 45⟩, [Ev.prefsLookup]) := by
  have h := (C2_discover_uuid defaultSettings initCtrl ⟨some 45⟩
      (.uuidMap [(EXTENSION_ID, "abc-123")]) ⟨.ok, .returns .vNone⟩).2.1
    (by decide) (by decide)
  exact h

/-- C3: activate() returns False without navigating when the UUID is falsy,
True without navigating when already activated; otherwise it navigates to
the options page and succeeds (setting _activated) exactly when the driver
raises nowhere and the script finds the settings document, in which case the
embedded script clicks every present unchecked checkbox; the result equals
the stored _activated flag and the other controller fields are unchanged. -/
theorem C3_activate (st : Settings) (c : ControllerState) (br : Browser)
    (env : ActivateEnv) :
    (c.activated = true → activate st c br env = (true, c, br, [])) ∧
    (c.activated = false → strTruthy c.uuid = false →
       activate st c br env = (false, c, br, [])) ∧
    (∀ t u, br = ⟨some t⟩ → c.uuid = some u → u ≠ "" → c.activated = false →
       Ev.nav ("moz-extension://" ++ u ++ "/dashboard.html#options.html")
         ∈ (activate st c br env).2.2.2 ∧
       ((activate st c br env).1 = true ↔
          (env.nav ≠ .raises ∧ env.scriptRaises = false ∧ ∃ d, env.dom = .doc d)) ∧
       (activate st c br env).2.1.activated = (activate st c br env).1 ∧
       (activate st c br env).2.1.uuid = c.uuid ∧
       (activate st c br env).2.1.filtersReady = c.filtersReady) ∧
    (∀ d : OptionsDoc,
       (runActivateScript (.doc d)).2 =
         .doc ⟨d.hidingAds.map (fun _ => true), d.clickingAds.map (fun _ => true),
               d.blockingMalware.map (fun _ => true)⟩ ∧
       (runActivateScript (.doc d)).1.lookup "error" = none) ∧
    (runActivateScript .noIframe).1.lookup "error" = some "no iframe found" ∧
    (runActivateScript .noDoc).1.lookup "error" = some "cannot access iframe document" := by
  obtain ⟨nav, sr, dom⟩ := env
  refine ⟨?_, ?_, ?_, ?_, rfl, rfl⟩
  · intro h; simp [activate, h]
  · intro h h1; simp [activate, h, h1]
  · rintro t u rfl hcu hu hca
    have hstr : strTruthy (some u) = true := by
      simpa [strTruthy] using hu
    cases nav <;> cases sr <;> cases dom <;>
      simp [activate, hca, hstr, hcu, set_page_load_timeout, bget,
        execute_script, dictVal, runActivateScript, isinstance, fstr]
  · intro d
    have hstep : ∀ cb : Checkbox, (clickStep cb).2 = cb.map (fun _ => true) := by
      intro cb
      rcases cb with _ | b
      · rfl
      · cases b <;> rfl
    constructor
    · show OptionsDom.doc ⟨(clickStep d.hidingAds).2, (clickStep d.clickingAds).2,
        (clickStep d.blockingMalware).2⟩ = _
      rw [hstep, hstep, hstep]
    · rfl

/-- Witness for C3 at concrete inputs: a controller with a known UUID, a
live driver, and an options document with one unchecked checkbox. -/
theorem C3_activate_witness :
    (activate defaultSettings ⟨some "u", false, false⟩ ⟨some 45⟩
        ⟨.ok, false, .doc ⟨some false, some true, some true⟩⟩).1 = true ∧
    (runActivateScript (.doc ⟨some false, some true, some true⟩)).2 =
      .doc ⟨some true, some true, some true⟩ := by
  have h := C3_activate defaultSettings ⟨some "u", false, false⟩ ⟨some 45⟩
      ⟨.ok, false, .doc ⟨some false, some true, some true⟩⟩
  refine ⟨?_, ?_⟩
  · exact (h.2.2.1 45 "u" rfl rfl (by decide) rfl).2.1.mpr
      ⟨by decide, rfl, ⟨_, rfl⟩⟩
  · exact (h.2.2.2.1 ⟨some false, some true, some true⟩).1

/-- C10: activate, _get_filter_count and scrape_vault each lower the
page-load timeout to 20 first and leave the driver's timeout restored to
settings.page_load_timeout on every path through their try blocks, while
their early-return paths leave the browser untouched. -/
theorem C10_timeout_restoration (st : Settings) (c : ControllerState) (t : Nat)
    (aenv : ActivateEnv) (genv : GFCEnv) (senv : ScrapeEnv) (u : Option String) :
    (c.activated = false → strTruthy c.uuid = true →
       (activate st c ⟨some t⟩ aenv).2.2.1 = ⟨some st.page_load_timeout⟩ ∧
       (activate st c ⟨some t⟩ aenv).2.2.2.head? = some (Ev.setTimeout 20)) ∧
    ((get_filter_count st u ⟨some t⟩ genv).2.1 = ⟨some st.page_load_timeout⟩ ∧
     (get_filter_count st u ⟨some t⟩ genv).2.2.head? = some (Ev.setTimeout 20)) ∧
    (strTruthy c.uuid = true →
       (scrape_vault st c ⟨some t⟩ senv).2.1 = ⟨some st.page_load_timeout⟩ ∧
       (scrape_vault st c ⟨some t⟩ senv).2.2.head? = some (Ev.setTimeout 20)) ∧
    (∀ br2, c.activated = true → (activate st c br2 aenv).2.2.1 = br2) ∧
    (∀ br2, c.activated = false → strTruthy c.uuid = false →
       (activate st c br2 aenv).2.2.1 = br2) ∧
    (∀ br2, strTruthy c.uuid = false → (scrape_vault st c br2 senv).2.1 = br2) := by
  obtain ⟨anav, asr, adom⟩ := aenv
  obtain ⟨gnav, gscr⟩ := genv
  obtain ⟨snav, ssr, sdom⟩ := senv
  refine ⟨?_, ?_, ?_, ?_, ?_, ?_⟩
  · intro h h1
    cases anav <;> cases asr <;>
      simp [activate, h, h1, set_page_load_timeout, bget, execute_script,
        dictVal, isinstance]
  · cases gnav with
    | raises =>
      cases gscr <;>
        simp [get_filter_count, set_page_load_timeout, bget, execute_script]
    | ok =>
      cases gscr with
      | raises =>
        simp [get_filter_count, set_page_load_timeout, bget, execute_script]
      | returns v =>
        by_cases hv : isinstance v .tStr = true
        · simp [get_filter_count, set_page_load_timeout, bget, execute_script, hv]
        · have hv2 : isinstance v .tStr = false := by simpa using hv
          simp [get_filter_count, set_page_load_timeout, bget, execute_script, hv2]
    | timedOut =>
      cases gscr with
      | raises =>
        simp [get_filter_count, set_page_load_timeout, bget, execute_script]
      | returns v =>
        by_cases hv : isinstance v .tStr = true
        · simp [get_filter_count, set_page_load_timeout, bget, execute_script, hv]
        · have hv2 : isinstance v .tStr = false := by simpa using hv
          simp [get_filter_count, set_page_load_timeout, bget, execute_script, hv2]
  · intro h
    cases snav <;> cases ssr <;>
      simp [scrape_vault, h, set_page_load_timeout, bget, execute_script,
        vaultVal, isinstance]
  · intro br2 h; simp [activate, h]
  · intro br2 h h1; simp [activate, h, h1]
  · intro br2 h; simp [scrape_vault, h]

/-- One _get_filter_count call from a driver whose timeout is already
settings.page_load_timeout; by gfc_driver_present every driver-attached call
returns the same count and events and the same final browser. -/
def gfcSteady (st : Settings) (u : Option String) (env : GFCEnv) :
    Nat × Browser × List Ev :=
  get_filter_count st u ⟨some st.page_load_timeout⟩ env

/-- With a driver attached, _get_filter_count's result does not depend on
the incoming timeout value, and it always leaves the timeout at
settings.page_load_timeout. -/
theorem gfc_driver_present (st : Settings) (u : Option String) (env : GFCEnv)
    (t : Nat) :
    get_filter_count st u ⟨some t⟩ env =
      ((gfcSteady st u env).1, ⟨some st.page_load_timeout⟩,
       (gfcSteady st u env).2.2) := by
  obtain ⟨nav, scr⟩ := env
  cases nav with
  | raises =>
    cases scr <;>
      simp [gfcSteady, get_filter_count, set_page_load_timeout, bget,
        execute_script]
  | ok =>
    cases scr with
    | raises =>
      simp [gfcSteady, get_filter_count, set_page_load_timeout, bget,
        execute_script]
    | returns v =>
      by_cases hv : isinstance v .tStr = true
      · simp [gfcSteady, get_filter_count, set_page_load_timeout, bget,
          execute_script, hv]
      · have hv2 : isinstance v .tStr = false := by simpa using hv
        simp [gfcSteady, get_filter_count, set_page_load_timeout, bget,
          execute_script, hv2]
  | timedOut =>
    cases scr with
    | raises =>
      simp [gfcSteady, get_filter_count, set_page_load_timeout, bget,
        execute_script]
    | returns v =>
      by_cases hv : isinstance v .tStr = true
      · simp [gfcSteady, get_filter_count, set_page_load_timeout, bget,
          execute_script, hv]
      · have hv2 : isinstance v .tStr = false := by simpa using hv
        simp [gfcSteady, get_filter_count, set_page_load_timeout, bget,
          execute_script, hv2]

/-- Events of the polling loop when poll i+k is the first positive one:
poll, sleep interval, poll, sleep interval, ..., poll. -/
def waitSuccessEvs (st : Settings) (u : Option String) (env : WaitEnv) :
    Nat → Nat → List Ev
  | i, 0 => Ev.pollFilters :: (gfcSteady st u (env.polls i)).2.2
  | i, k+1 =>
    Ev.pollFilters :: (gfcSteady st u (env.polls i)).2.2
      ++ Ev.sleep st.filter_poll_interval :: waitSuccessEvs st u env (i+1) k

/-- Events of the polling loop when it times out after m zero polls: each
poll is followed by a sleep of the poll interval. -/
def waitTimeoutEvs (st : Settings) (u : Option String) (env : WaitEnv) :
    Nat → Nat → List Ev
  | _, 0 => []
  | i, m+1 =>
    Ev.pollFilters :: (gfcSteady st u (env.polls i)).2.2
      ++ Ev.sleep st.filter_poll_interval :: waitTimeoutEvs st u env (i+1) m

/-- The observed clock advances by at least d poll intervals over d loop
iterations. -/
theorem timeAt_stride (env : WaitEnv) (itv : Nat)
    (hmono : ∀ j, env.timeAt j + itv ≤ env.timeAt (j+1)) :
    ∀ a d, env.timeAt a + d * itv ≤ env.timeAt (a + d) := by
  intro a d
  induction d with
  | zero => simp
  | succ d ih =>
    have h2 := hmono (a + d)
    have h3 : env.timeAt a + (d + 1) * itv = env.timeAt a + d * itv + itv := by ring
    have h4 : a + (d + 1) = a + d + 1 := by omega
    rw [h3, h4]
    omega

/-- Unrolling of the polling loop to its first positive poll. -/
theorem waitLoop_success (st : Settings) (u : Option String) (env : WaitEnv)
    (deadline : Nat) :
    ∀ k fuel i t : Nat, k < fuel →
      (∀ j, j < k → (gfcSteady st u (env.polls (i+j))).1 = 0) →
      (∀ j, j ≤ k → env.timeAt (i+j) < deadline) →
      0 < (gfcSteady st u (env.polls (i+k))).1 →
      waitLoopAux st u env deadline fuel i ⟨some t⟩ =
        (true, ⟨some st.page_load_timeout⟩, waitSuccessEvs st u env i k) := by
  intro k
  induction k with
  | zero =>
    intro fuel i t hfuel hz ht hpos
    cases fuel with
    | zero => omega
    | succ f =>
      have ht0 : env.timeAt i < deadline := by simpa using ht 0 (Nat.zero_le _)
      have hpos0 : 0 < (gfcSteady st u (env.polls i)).1 := by simpa using hpos
      simp only [waitLoopAux, ht0, if_pos, gfc_driver_present, hpos0,
        waitSuccessEvs]
  | succ k ih =>
    intro fuel i t hfuel hz ht hpos
    cases fuel with
    | zero => omega
    | succ f =>
      have ht0 : env.timeAt i < deadline := by simpa using ht 0 (Nat.zero_le _)
      have hc0 : (gfcSteady st u (env.polls i)).1 = 0 := by
        simpa using hz 0 (Nat.succ_pos k)
      have hz2 : ∀ j, j < k → (gfcSteady st u (env.polls (i+1+j))).1 = 0 := by
        intro j hj
        have h1 := hz (j+1) (by omega)
        have hidx : i + (j+1) = i + 1 + j := by omega
        rwa [hidx] at h1
      have ht2 : ∀ j, j ≤ k → env.timeAt (i+1+j) < deadline := by
        intro j hj
        have h1 := ht (j+1) (by omega)
        have hidx : i + (j+1) = i + 1 + j := by omega
        rwa [hidx] at h1
      have hpos2 : 0 < (gfcSteady st u (env.polls (i+1+k))).1 := by
        have hidx : i + (k+1) = i + 1 + k := by omega
        rwa [hidx] at hpos
      have hrec := ih f (i+1) st.page_load_timeout (by omega) hz2 ht2 hpos2
      simp only [waitLoopAux, ht0, if_pos, gfc_driver_present, hc0,
        Nat.lt_irrefl, if_false, hrec, waitSuccessEvs]

/-- Unrolling of the polling loop to the first loop-head check past the
deadline, when every earlier poll returned 0. -/
theorem waitLoop_timeout (st : Settings) (u : Option String) (env : WaitEnv)
    (deadline : Nat) :
    ∀ m fuel i t : Nat, m < fuel →
      (∀ j, j < m → env.timeAt (i+j) < deadline ∧
         (gfcSteady st u (env.polls (i+j))).1 = 0) →
      deadline ≤ env.timeAt (i+m) →
      waitLoopAux st u env deadline fuel i ⟨some t⟩ =
        (false, if m = 0 then ⟨some t⟩ else ⟨some st.page_load_timeout⟩,
         waitTimeoutEvs st u env i m) := by
  intro m
  induction m with
  | zero =>
    intro fuel i t hfuel hj hd
    cases fuel with
    | zero => omega
    | succ f =>
      have hd0 : deadline ≤ env.timeAt i := by simpa using hd
      have hnot : ¬ env.timeAt i < deadline := by omega
      simp [waitLoopAux, hnot, waitTimeoutEvs]
  | succ m ih =>
    intro fuel i t hfuel hj hd
    cases fuel with
    | zero => omega
    | succ f =>
      have ht0 : env.timeAt i < deadline := by simpa using (hj 0 (Nat.succ_pos m)).1
      have hc0 : (gfcSteady st u (env.polls i)).1 = 0 := by
        simpa using (hj 0 (Nat.succ_pos m)).2
      have hj2 : ∀ j, j < m → env.timeAt (i+1+j) < deadline ∧
          (gfcSteady st u (env.polls (i+1+j))).1 = 0 := by
        intro j hjj
        have h1 := hj (j+1) (by omega)
        have hidx : i + (j+1) = i + 1 + j := by omega
        rwa [hidx] at h1
      have hd2 : deadline ≤ env.timeAt (i+1+m) := by
        have hidx : i + (m+1) = i + 1 + m := by omega
        rwa [hidx] at hd
      have hrec := ih f (i+1) st.page_load_timeout (by omega) hj2 hd2
      have hbr : (if m = 0 then (⟨some st.page_load_timeout⟩ : Browser)
          else ⟨some st.page_load_timeout⟩) = ⟨some st.page_load_timeout⟩ := by
        split <;> rfl
      rw [hbr] at hrec
      simp only [waitLoopAux, ht0, if_pos, gfc_driver_present, hc0,
        Nat.lt_irrefl, if_false, hrec, waitTimeoutEvs,
        Nat.succ_ne_zero]

/-- C1: wait_for_filters returns True immediately for a controller already
marked ready and False immediately (without polling) for one with a falsy
UUID; otherwise it polls _get_filter_count, sleeping filter_poll_interval
between polls, returning True and setting _filters_ready at the first
positive count observed before the deadline t0 + filter_poll_timeout, and
returning False with _filters_ready still unset when the clock passes the
deadline with every earlier poll returning zero. -/
theorem C1_wait_for_filters (st : Settings) (c : ControllerState) (br : Browser)
    (env : WaitEnv) (t : Nat)
    (hitv : 1 ≤ st.filter_poll_interval)
    (ht0 : env.t0 ≤ env.timeAt 0)
    (hmono : ∀ j, env.timeAt j + st.filter_poll_interval ≤ env.timeAt (j+1)) :
    (c.filtersReady = true → wait_for_filters st c br env = (true, c, br, [])) ∧
    (c.filtersReady = false → strTruthy c.uuid = false →
       wait_for_filters st c br env = (false, c, br, [])) ∧
    (c.filtersReady = false → strTruthy c.uuid = true → br = ⟨some t⟩ →
       (∀ k, env.timeAt k < env.t0 + st.filter_poll_timeout →
          (∀ j, j < k → (gfcSteady st c.uuid (env.polls j)).1 = 0) →
          0 < (gfcSteady st c.uuid (env.polls k)).1 →
          wait_for_filters st c br env =
            (true, { c with filtersReady := true }, ⟨some st.page_load_timeout⟩,
             waitSuccessEvs st c.uuid env 0 k)) ∧
       (∀ m, env.t0 + st.filter_poll_timeout ≤ env.timeAt m →
          (∀ j, j < m → env.timeAt j < env.t0 + st.filter_poll_timeout ∧
             (gfcSteady st c.uuid (env.polls j)).1 = 0) →
          wait_for_filters st c br env =
            (false, c, (if m = 0 then br else ⟨some st.page_load_timeout⟩),
             waitTimeoutEvs st c.uuid env 0 m))) := by
  have hstride := timeAt_stride env st.filter_poll_interval hmono
  refine ⟨?_, ?_, ?_⟩
  · intro h; simp [wait_for_filters, h]
  · intro h h1; simp [wait_for_filters, h, h1]
  · rintro hfr hu rfl
    constructor
    · intro k hk hz hpos
      have hkfuel : k < st.filter_poll_timeout + 1 := by
        have h1 := hstride 0 k
        rw [Nat.zero_add] at h1
        have h2 : k ≤ k * st.filter_poll_interval := by
          calc k = k * 1 := by ring
          _ ≤ k * st.filter_poll_interval := Nat.mul_le_mul_left k hitv
        set K := k * st.filter_poll_interval with hK
        omega
      have hmt : ∀ j, j ≤ k → env.timeAt (0+j) < env.t0 + st.filter_poll_timeout := by
        intro j hj
        have h1 := hstride j (k - j)
        have h2 : j + (k - j) = k := by omega
        rw [h2] at h1
        have h3 : env.timeAt j ≤ env.timeAt k :=
          le_trans (Nat.le_add_right _ _) h1
        rw [Nat.zero_add]
        exact lt_of_le_of_lt h3 hk
      have hz2 : ∀ j, j < k → (gfcSteady st c.uuid (env.polls (0+j))).1 = 0 := by
        intro j hj; rw [Nat.zero_add]; exact hz j hj
      have hpos2 : 0 < (gfcSteady st c.uuid (env.polls (0+k))).1 := by
        rw [Nat.zero_add]; exact hpos
      have hmain := waitLoop_success st c.uuid env (env.t0 + st.filter_poll_timeout)
        k (st.filter_poll_timeout + 1) 0 t hkfuel hz2 hmt hpos2
      simp [wait_for_filters, hfr, hu, hmain]
    · intro m hm hj
      have hmfuel : m < st.filter_poll_timeout + 1 := by
        cases m with
        | zero => omega
        | succ m2 =>
          have h0 := (hj m2 (Nat.lt_succ_self m2)).1
          have h1 := hstride 0 m2
          rw [Nat.zero_add] at h1
          have h2 : m2 ≤ m2 * st.filter_poll_interval := by
            calc m2 = m2 * 1 := by ring
            _ ≤ m2 * st.filter_poll_interval := Nat.mul_le_mul_left m2 hitv
          set K := m2 * st.filter_poll_interval with hK
          omega
      have hj2 : ∀ j, j < m → env.timeAt (0+j) < env.t0 + st.filter_poll_timeout ∧
          (gfcSteady st c.uuid (env.polls (0+j))).1 = 0 := by
        intro j hjj; rw [Nat.zero_add]; exact hj j hjj
      have hm2 : env.t0 + st.filter_poll_timeout ≤ env.timeAt (0+m) := by
        rw [Nat.zero_add]; exact hm
      have hmain := waitLoop_timeout st c.uuid env (env.t0 + st.filter_poll_timeout)
        m (st.filter_poll_timeout + 1) 0 t hmfuel hj2 hm2
      simp [wait_for_filters, hfr, hu, hmain]

/-- Witness for C1 at concrete inputs: one-second poll interval, an
identity clock, and a first poll that already reports 5 network filters. -/
theorem C1_wait_for_filters_witness :
    wait_for_filters ⟨1, 3, 25, 45, []⟩ ⟨some "u", false, false⟩ ⟨some 45⟩
        ⟨0, fun j => j, fun _ => ⟨.ok, .returns (.vStr "5 network filters")⟩⟩ =
      (true, ⟨some "u", false, true⟩, ⟨some 45⟩,
       waitSuccessEvs ⟨1, 3, 25, 45, []⟩ (some "u")
         ⟨0, fun j => j, fun _ => ⟨.ok, .returns (.vStr "5 network filters")⟩⟩ 0 0) := by
  have h := (C1_wait_for_filters ⟨1, 3, 25, 45, []⟩ ⟨some "u", false, false⟩
      ⟨some 45⟩
      ⟨0, fun j => j, fun _ => ⟨.ok, .returns (.vStr "5 network filters")⟩⟩ 45
      (by decide) (by decide) (fun j => Nat.le_refl _)).2.2 rfl (by decide) rfl
  exact h.1 0 (by decide) (fun j hj => absurd hj (Nat.not_lt_zero j)) (by decide)

/-- Lists of events that contain none of the loop-level markers (browser
restart, controller reset, handled error); everything the session body emits
outside the scheduled-restart and error-handler paths is of this kind. -/
def noLoopEvents (l : List Ev) : Prop :=
  Ev.browserRestart ∉ l ∧ Ev.ctrlReset ∉ l ∧ Ev.handledError ∉ l

theorem noLoopEvents_nil : noLoopEvents [] := by simp [noLoopEvents]

theorem noLoopEvents_append {a b : List Ev} (ha : noLoopEvents a)
    (hb : noLoopEvents b) : noLoopEvents (a ++ b) := by
  obtain ⟨h1, h2, h3⟩ := ha
  obtain ⟨h4, h5, h6⟩ := hb
  refine ⟨?_, ?_, ?_⟩ <;> simp only [List.mem_append] <;> tauto

theorem execute_script_no_events (br : Browser) (ty : PyType)
    (beh : ScriptBehavior) : (execute_script br ty beh).2.2 = [] := by
  obtain ⟨d⟩ := br
  cases d with
  | none => rfl
  | some t =>
    cases beh with
    | raises => rfl
    | returns v =>
      by_cases hv : isinstance v ty = true
      · simp [execute_script, hv]
      · have hv2 : isinstance v ty = false := by simpa using hv
        simp [execute_script, hv2]

theorem noloop_set_timeout (br : Browser) (n : Nat) :
    noLoopEvents (set_page_load_timeout br n).2 := by
  obtain ⟨d⟩ := br
  cases d <;> simp [set_page_load_timeout, noLoopEvents]

theorem noloop_bget (st : Settings) (br : Browser) (url : String)
    (beh : NavBehavior) : noLoopEvents (bget st br url beh).2.2 := by
  obtain ⟨d⟩ := br
  cases d <;> cases beh <;> simp [bget, noLoopEvents]

theorem noloop_dbg (st : Settings) (br : Browser) (env : DebuggerEnv) :
    noLoopEvents (uuid_from_debugger st br env).2.2 := by
  obtain ⟨nav, scr⟩ := env
  rcases hb : bget st br "about:debugging#/runtime/this-firefox" nav with ⟨r, br1, e1⟩
  have he1 : noLoopEvents e1 := by
    have := noloop_bget st br "about:debugging#/runtime/this-firefox" nav
    rwa [hb] at this
  rcases hx : execute_script br1 .tStr scr with ⟨r2, br2, e2⟩
  have he2 : e2 = [] := by
    have := execute_script_no_events br1 .tStr scr
    rwa [hx] at this
  subst he2
  cases r with
  | none => simpa [uuid_from_debugger, hb] using he1
  | some rr =>
    cases r2 with
    | none =>
      have : (uuid_from_debugger st br ⟨nav, scr⟩).2.2 = e1 ++ [Ev.sleep 10] := by
        simp [uuid_from_debugger, hb, hx]
      rw [this]
      exact noLoopEvents_append he1 (by simp [noLoopEvents])
    | some v =>
      have : (uuid_from_debugger st br ⟨nav, scr⟩).2.2 = e1 ++ [Ev.sleep 10] := by
        simp [uuid_from_debugger, hb, hx]
      rw [this]
      exact noLoopEvents_append he1 (by simp [noLoopEvents])

theorem noloop_discover (st : Settings) (c : ControllerState) (br : Browser)
    (penv : PrefsOutcome) (denv : DebuggerEnv) :
    noLoopEvents (discover_uuid st c br penv denv).2.2.2 := by
  by_cases h : strTruthy c.uuid = true
  · simp [discover_uuid, h, noLoopEvents]
  · have h2 : strTruthy c.uuid = false := by simpa using h
    by_cases h1 : strTruthy (uuid_from_prefs penv) = true
    · simp [discover_uuid, h2, h1, noLoopEvents]
    · have h12 : strTruthy (uuid_from_prefs penv) = false := by simpa using h1
      have hd := noloop_dbg st br denv
      obtain ⟨d1, d2, d3⟩ := hd
      by_cases h3 : strTruthy (uuid_from_debugger st br denv).1 = true
      · simp only [discover_uuid, h2, h12, h3]
        simp [noLoopEvents, d1, d2, d3]
      · have h32 : strTruthy (uuid_from_debugger st br denv).1 = false := by
          simpa using h3
        simp only [discover_uuid, h2, h12, h32]
        simp [noLoopEvents, d1, d2, d3]

theorem noloop_activate (st : Settings) (c : ControllerState) (br : Browser)
    (env : ActivateEnv) : noLoopEvents (activate st c br env).2.2.2 := by
  obtain ⟨nav, sr, dom⟩ := env
  obtain ⟨d⟩ := br
  by_cases h : (c.activated || !strTruthy c.uuid) = true
  · simp [activate, h, noLoopEvents]
  · have h2 : (c.activated || !strTruthy c.uuid) = false := by simpa using h
    cases d <;> cases nav <;> cases sr <;> cases dom <;>
      simp [activate, h2, set_page_load_timeout, bget, execute_script,
        dictVal, isinstance, noLoopEvents]

theorem noloop_gfc (st : Settings) (u : Option String) (br : Browser)
    (env : GFCEnv) : noLoopEvents (get_filter_count st u br env).2.2 := by
  obtain ⟨nav, scr⟩ := env
  obtain ⟨d⟩ := br
  cases d with
  | none =>
    cases nav <;> cases scr <;>
      simp [get_filter_count, set_page_load_timeout, bget, execute_script,
        noLoopEvents]
  | some t =>
    rw [gfc_driver_present]
    have := gfc_driver_present st u ⟨nav, scr⟩ st.page_load_timeout
    cases nav with
    | raises =>
      cases scr <;>
        simp [gfcSteady, get_filter_count, set_page_load_timeout, bget,
          execute_script, noLoopEvents]
    | ok =>
      cases scr with
      | raises =>
        simp [gfcSteady, get_filter_count, set_page_load_timeout, bget,
          execute_script, noLoopEvents]
      | returns v =>
        by_cases hv : isinstance v .tStr = true
        · simp [gfcSteady, get_filter_count, set_page_load_timeout, bget,
            execute_script, hv, noLoopEvents]
        · have hv2 : isinstance v .tStr = false := by simpa using hv
          simp [gfcSteady, get_filter_count, set_page_load_timeout, bget,
            execute_script, hv2, noLoopEvents]
    | timedOut =>
      cases scr with
      | raises =>
        simp [gfcSteady, get_filter_count, set_page_load_timeout, bget,
          execute_script, noLoopEvents]
      | returns v =>
        by_cases hv : isinstance v .tStr = true
        · simp [gfcSteady, get_filter_count, set_page_load_timeout, bget,
            execute_script, hv, noLoopEvents]
        · have hv2 : isinstance v .tStr = false := by simpa using hv
          simp [gfcSteady, get_filter_count, set_page_load_timeout, bget,
            execute_script, hv2, noLoopEvents]

theorem noloop_waitLoopAux (st : Settings) (u : Option String) (env : WaitEnv)
    (deadline : Nat) :
    ∀ fuel i br, noLoopEvents (waitLoopAux st u env deadline fuel i br).2.2 := by
  intro fuel
  induction fuel with
  | zero => intro i br; simp [waitLoopAux, noLoopEvents]
  | succ f ih =>
    intro i br
    by_cases ht : env.timeAt i < deadline
    · rcases hg : get_filter_count st u br (env.polls i) with ⟨cnt, br1, e1⟩
      have he1 : noLoopEvents e1 := by
        have := noloop_gfc st u br (env.polls i)
        rwa [hg] at this
      by_cases hc : 0 < cnt
      · have : (waitLoopAux st u env deadline (f+1) i br).2.2 =
            Ev.pollFilters :: e1 := by
          simp [waitLoopAux, ht, hg, hc]
        rw [this]
        obtain ⟨a1, a2, a3⟩ := he1
        simp [noLoopEvents, a1, a2, a3]
      · have hc2 : ¬ 0 < cnt := hc
        rcases hr : waitLoopAux st u env deadline f (i+1) br1 with ⟨b, br2, e2⟩
        have he2 : noLoopEvents e2 := by
          have := ih (i+1) br1
          rwa [hr] at this
        have : (waitLoopAux st u env deadline (f+1) i br).2.2 =
            Ev.pollFilters :: e1 ++ Ev.sleep st.filter_poll_interval :: e2 := by
          simp [waitLoopAux, ht, hg, hc2, hr]
        rw [this]
        obtain ⟨a1, a2, a3⟩ := he1
        obtain ⟨b1, b2, b3⟩ := he2
        simp [noLoopEvents, a1, a2, a3, b1, b2, b3]
    · simp [waitLoopAux, ht, noLoopEvents]

theorem noloop_wait (st : Settings) (c : ControllerState) (br : Browser)
    (env : WaitEnv) : noLoopEvents (wait_for_filters st c br env).2.2.2 := by
  by_cases h : c.filtersReady = true
  · simp [wait_for_filters, h, noLoopEvents]
  · have h2 : c.filtersReady = false := by simpa using h
    by_cases h1 : strTruthy c.uuid = true
    · rcases hw : waitLoopAux st c.uuid env (env.t0 + st.filter_poll_timeout)
          (st.filter_poll_timeout + 1) 0 br with ⟨b, br1, evs⟩
      have he : noLoopEvents evs := by
        have := noloop_waitLoopAux st c.uuid env (env.t0 + st.filter_poll_timeout)
          (st.filter_poll_timeout + 1) 0 br
        rwa [hw] at this
      cases b <;> simpa [wait_for_filters, h2, h1, hw] using he
    · have h12 : strTruthy c.uuid = false := by simpa using h1
      simp [wait_for_filters, h2, h12, noLoopEvents]

theorem noloop_scrape (st : Settings) (c : ControllerState) (br : Browser)
    (env : ScrapeEnv) : noLoopEvents (scrape_vault st c br env).2.2 := by
  obtain ⟨nav, sr, dom⟩ := env
  obtain ⟨d⟩ := br
  by_cases h : strTruthy c.uuid = true
  · cases d <;> cases nav <;> cases sr <;>
      simp [scrape_vault, h, set_page_load_timeout, bget, execute_script,
        vaultVal, isinstance, noLoopEvents]
  · have h2 : strTruthy c.uuid = false := by simpa using h
    simp [scrape_vault, h2, noLoopEvents]

theorem noloop_scrollLoop (br : Browser) (scrolls : Nat → ScriptBehavior)
    (pauses : Nat → Nat) :
    ∀ n j, noLoopEvents (scrollLoop br scrolls pauses j n).2 := by
  intro n
  induction n with
  | zero => intro j; simp [scrollLoop, noLoopEvents]
  | succ m ih =>
    intro j
    rcases hx : execute_script br .tStr (scrolls j) with ⟨r, br1, e1⟩
    have he1 : e1 = [] := by
      have := execute_script_no_events br .tStr (scrolls j)
      rwa [hx] at this
    subst he1
    cases r with
    | none => simp [scrollLoop, hx, noLoopEvents]
    | some v =>
      rcases hr : scrollLoop br scrolls pauses (j+1) m with ⟨ok, evs⟩
      have he : noLoopEvents evs := by
        have := ih (j+1)
        rwa [hr] at this
      obtain ⟨a1, a2, a3⟩ := he
      simp [scrollLoop, hx, hr, noLoopEvents, a1, a2, a3]

theorem noloop_adBrowse (st : Settings) (br : Browser) (env : BrowseEnv) :
    noLoopEvents (adBrowse st br env).2.2 := by
  rcases hb : bget st br env.url env.nav with ⟨r, br1, e1⟩
  have he1 : noLoopEvents e1 := by
    have := noloop_bget st br env.url env.nav
    rwa [hb] at this
  cases r with
  | none => simpa [adBrowse, hb] using he1
  | some rr =>
    rcases hs : scrollLoop br1 env.scrolls env.pauses 0 env.steps with ⟨ok, evs⟩
    have he : noLoopEvents evs := by
      have := noloop_scrollLoop br1 env.scrolls env.pauses env.steps 0
      rwa [hs] at this
    have : (adBrowse st br env).2.2 = e1 ++ Ev.heartbeat :: evs := by
      simp [adBrowse, hb, hs]
    rw [this]
    refine noLoopEvents_append he1 ?_
    obtain ⟨a1, a2, a3⟩ := he
    simp [noLoopEvents, a1, a2, a3]

theorem noloop_setup (st : Settings) (c : ControllerState) (br : Browser)
    (env : SetupEnv) : noLoopEvents (setup st c br env).2.2.2 := by
  rcases hd : discover_uuid st c br env.prefs env.dbg with ⟨ok, c1, br1, e1⟩
  have he1 : noLoopEvents e1 := by
    have := noloop_discover st c br env.prefs env.dbg
    rwa [hd] at this
  cases ok with
  | false =>
    have : (setup st c br env).2.2.2 = Ev.callDiscover :: e1 := by
      simp [setup, hd]
    rw [this]
    obtain ⟨a1, a2, a3⟩ := he1
    simp [noLoopEvents, a1, a2, a3]
  | true =>
    rcases ha : activate st c1 br1 env.act with ⟨okA, c2, br2, e2⟩
    have he2 : noLoopEvents e2 := by
      have := noloop_activate st c1 br1 env.act
      rwa [ha] at this
    rcases hw : wait_for_filters st c2 br2 env.wait with ⟨okW, c3, br3, e3⟩
    have he3 : noLoopEvents e3 := by
      have := noloop_wait st c2 br2 env.wait
      rwa [hw] at this
    have : (setup st c br env).2.2.2 =
        Ev.callDiscover :: e1 ++ Ev.callActivate :: e2 ++ Ev.callWait :: e3 := by
      simp [setup, hd, ha, hw]
    rw [this]
    obtain ⟨a1, a2, a3⟩ := he1
    obtain ⟨b1, b2, b3⟩ := he2
    obtain ⟨d1, d2, d3⟩ := he3
    simp [noLoopEvents, a1, a2, a3, b1, b2, b3, d1, d2, d3]

/-- With no driver exception during navigation or scrolling, _browse
completes without a propagating exception. -/
theorem adBrowse_ok (st : Settings) (br : Browser) (env : BrowseEnv)
    (hnav : env.nav ≠ .raises) (hscr : ∀ j, env.scrolls j ≠ .raises) :
    (adBrowse st br env).1 = true := by
  have hscroll : ∀ n j br2, (scrollLoop br2 env.scrolls env.pauses j n).1 = true := by
    intro n
    induction n with
    | zero => intro j br2; simp [scrollLoop]
    | succ m ih =>
      intro j br2
      rcases hx : execute_script br2 .tStr (env.scrolls j) with ⟨r, br3, e1⟩
      cases r with
      | none =>
        exfalso
        obtain ⟨d⟩ := br2
        cases d with
        | none => simp [execute_script] at hx
        | some t =>
          cases hbeh : env.scrolls j with
          | raises => exact hscr j (by rw [hbeh])
          | returns v =>
            rw [hbeh] at hx
            by_cases hv : isinstance v .tStr = true
            · simp [execute_script, hv] at hx
            · have hv2 : isinstance v .tStr = false := by simpa using hv
              simp [execute_script, hv2] at hx
      | some rr =>
        rcases hr : scrollLoop br2 env.scrolls env.pauses (j+1) m with ⟨ok, evs⟩
        have : ok = true := by
          have := ih (j+1) br2
          rwa [hr] at this
        subst this
        simp [scrollLoop, hx, hr]
  rcases hb : bget st br env.url env.nav with ⟨r, br1, e1⟩
  cases r with
  | none =>
    exfalso
    obtain ⟨d⟩ := br
    cases d with
    | none => simp [bget] at hb
    | some t =>
      cases hn : env.nav with
      | raises => exact hnav (by rw [hn])
      | ok => rw [hn] at hb; simp [bget] at hb
      | timedOut => rw [hn] at hb; simp [bget] at hb
  | some rr =>
    rcases hs : scrollLoop br1 env.scrolls env.pauses 0 env.steps with ⟨ok, evs⟩
    have : ok = true := by
      have := hscroll env.steps 0 br1
      rwa [hs] at this
    subst this
    simp [adBrowse, hb, hs]

/-- Every branch of the post-setup part of the loop body produces a next
state. -/
theorem runTail_total (st : Settings) (env : StepEnv) (n : Nat)
    (c : ControllerState) (br : Browser) (evs : List Ev) :
    ∃ σ2 evs2, runTail st env n c br evs = (some σ2, evs2) := by
  unfold runTail handleLoopError
  repeat' split
  all_goals exact ⟨_, _, rfl⟩

/-- Witness for C10 at concrete inputs. -/
theorem C10_timeout_restoration_witness :
    (activate defaultSettings ⟨some "u", false, false⟩ ⟨some 300⟩
        ⟨.ok, false, .doc ⟨some true, some true, some true⟩⟩).2.2.1
      = ⟨some 45⟩ ∧
    (get_filter_count defaultSettings (some "u") ⟨some 300⟩
        ⟨.ok, .returns .vNone⟩).2.1 = ⟨some 45⟩ := by
  have h := C10_timeout_restoration defaultSettings ⟨some "u", false, false⟩ 300
      ⟨.ok, false, .doc ⟨some true, some true, some true⟩⟩
      ⟨.ok, .returns .vNone⟩ ⟨.ok, false, ⟨none, none, none⟩⟩ (some "u")
  exact ⟨(h.1 rfl (by decide)).1, h.2.1.1⟩

/-- C5: inside the run() loop every Exception raised during a session is
caught by the loop body, whose handler restarts the browser and resets the
controller before the next session; runStep yields no next state only when a
termination signal (SystemExit) arrives, and run() exits with sys.exit(1)
when the initial browser start fails. -/
theorem C5_run_loop_error_recovery (st : Settings) (σ : OrchState) (env : StepEnv) :
    (env.signal = true → runStep st σ env = (none, [])) ∧
    (env.signal = false → ∃ σ2 evs, runStep st σ env = (some σ2, evs)) ∧
    (env.signal = false → env.inject = some .choice →
       runStep st σ env = (some ⟨σ.sessionCount, initCtrl,
           if env.handlerBootOk then ⟨some env.handlerFreshT⟩ else ⟨none⟩⟩,
         [Ev.handledError, Ev.browserRestart, Ev.ctrlReset])) ∧
    (env.signal = false → env.inject = some .browse →
       runStep st σ env = (some ⟨σ.sessionCount + 1, initCtrl,
           if env.handlerBootOk then ⟨some env.handlerFreshT⟩ else ⟨none⟩⟩,
         [Ev.handledError, Ev.browserRestart, Ev.ctrlReset])) ∧
    (env.signal = false → env.inject = none → env.browseEnv.nav = .raises →
       ∀ t2, σ.browser = ⟨some t2⟩ →
       ∃ pre, runStep st σ env = (some ⟨σ.sessionCount + 1, initCtrl,
           if env.handlerBootOk then ⟨some env.handlerFreshT⟩ else ⟨none⟩⟩,
         pre ++ [Ev.handledError, Ev.browserRestart, Ev.ctrlReset])) ∧
    (env.signal = false → env.inject = some .setupPhase →
       env.browseEnv.nav ≠ .raises → (∀ j, env.browseEnv.scrolls j ≠ .raises) →
       ready σ.ctrl = false →
       ∃ pre, runStep st σ env = (some ⟨σ.sessionCount + 1, initCtrl,
           if env.handlerBootOk then ⟨some env.handlerFreshT⟩ else ⟨none⟩⟩,
         pre ++ [Ev.handledError, Ev.browserRestart, Ev.ctrlReset])) ∧
    (env.signal = false → env.inject = some .scrape →
       env.browseEnv.nav ≠ .raises → (∀ j, env.browseEnv.scrolls j ≠ .raises) →
       ∃ pre, runStep st σ env = (some ⟨σ.sessionCount + 1, initCtrl,
           if env.handlerBootOk then ⟨some env.handlerFreshT⟩ else ⟨none⟩⟩,
         pre ++ [Ev.handledError, Ev.browserRestart, Ev.ctrlReset])) ∧
    (env.signal = false → env.inject = some .restartPhase →
       env.browseEnv.nav ≠ .raises → (∀ j, env.browseEnv.scrolls j ≠ .raises) →
       (σ.sessionCount + 1) % st.session_restart_interval = 0 →
       ∃ pre, runStep st σ env = (some ⟨σ.sessionCount + 1, initCtrl,
           if env.handlerBootOk then ⟨some env.handlerFreshT⟩ else ⟨none⟩⟩,
         pre ++ [Ev.handledError, Ev.browserRestart, Ev.ctrlReset])) ∧
    (∀ t2, runBoot false t2 = .error 1) := by
  refine ⟨?_, ?_, ?_, ?_, ?_, ?_, ?_, ?_, fun t2 => rfl⟩
  · intro h; simp [runStep, h]
  · intro h
    rcases hB : adBrowse st σ.browser env.browseEnv with ⟨ok, br1, evB⟩
    by_cases h1 : env.inject = some Phase.choice
    · have hstep : runStep st σ env =
          handleLoopError env σ.sessionCount σ.ctrl σ.browser [] := by
        simp [runStep, h, h1]
      exact ⟨_, _, by rw [hstep]; rfl⟩
    · by_cases h2 : env.inject = some Phase.browse
      · have hstep : runStep st σ env =
            handleLoopError env (σ.sessionCount + 1) σ.ctrl σ.browser [] := by
          simp [runStep, h, h1, h2]
        exact ⟨_, _, by rw [hstep]; rfl⟩
      · cases ok with
        | false =>
          have hstep : runStep st σ env =
              handleLoopError env (σ.sessionCount + 1) σ.ctrl br1 evB := by
            simp [runStep, h, h1, h2, hB]
          exact ⟨_, _, by rw [hstep]; rfl⟩
        | true =>
          by_cases hr : ready σ.ctrl = true
          · have ht := runTail_total st env (σ.sessionCount + 1) σ.ctrl br1 evB
            obtain ⟨σ2, evs2, ht⟩ := ht
            exact ⟨σ2, evs2, by
              simp only [runStep, h, Bool.false_eq_true, if_false, h1, h2, hB,
                hr, if_true, if_pos]
              exact ht⟩
          · have hr2 : ready σ.ctrl = false := by simpa using hr
            by_cases h3 : env.inject = some Phase.setupPhase
            · have hstep : runStep st σ env =
                  handleLoopError env (σ.sessionCount + 1) σ.ctrl br1 evB := by
                simp [runStep, h, h1, h2, h3, hB, hr2]
              exact ⟨_, _, by rw [hstep]; rfl⟩
            · rcases hS : setup st σ.ctrl br1 env.setupEnv with ⟨okS, c2, br2, evS⟩
              have ht := runTail_total st env (σ.sessionCount + 1) c2 br2 (evB ++ evS)
              obtain ⟨σ2, evs2, ht⟩ := ht
              exact ⟨σ2, evs2, by
                simp only [runStep, h, Bool.false_eq_true, if_false, h1, h2,
                  h3, hB, hr2, hS, if_true, if_pos]
                exact ht⟩
  · intro h h1
    simp [runStep, h, h1, handleLoopError, browser_restart, ctrlReset, initCtrl]
  · intro h h1
    simp [runStep, h, h1, handleLoopError, browser_restart, ctrlReset, initCtrl]
  · intro h h1 hnav t2 hbr
    refine ⟨[Ev.setTimeout st.page_load_timeout, Ev.nav env.browseEnv.url], ?_⟩
    simp [runStep, h, h1, hbr, adBrowse, bget, hnav, handleLoopError,
      browser_restart, ctrlReset, initCtrl]
  · intro h h1 hnav hscr hready
    rcases hB : adBrowse st σ.browser env.browseEnv with ⟨ok, br1, evB⟩
    have hok : ok = true := by
      have := adBrowse_ok st σ.browser env.browseEnv hnav hscr
      rwa [hB] at this
    subst hok
    refine ⟨evB, ?_⟩
    simp [runStep, h, h1, hB, hready, handleLoopError, browser_restart,
      ctrlReset, initCtrl]
  · intro h h1 hnav hscr
    rcases hB : adBrowse st σ.browser env.browseEnv with ⟨ok, br1, evB⟩
    have hok : ok = true := by
      have := adBrowse_ok st σ.browser env.browseEnv hnav hscr
      rwa [hB] at this
    subst hok
    by_cases hr : ready σ.ctrl = true
    · refine ⟨evB, ?_⟩
      simp [runStep, runTail, h, h1, hB, hr, handleLoopError, browser_restart,
        ctrlReset, initCtrl]
    · have hr2 : ready σ.ctrl = false := by simpa using hr
      rcases hS : setup st σ.ctrl br1 env.setupEnv with ⟨okS, c2, br2, evS⟩
      refine ⟨evB ++ evS, ?_⟩
      simp [runStep, runTail, h, h1, hB, hr2, hS, handleLoopError,
        browser_restart, ctrlReset, initCtrl]
  · intro h h1 hnav hscr hmod
    rcases hB : adBrowse st σ.browser env.browseEnv with ⟨ok, br1, evB⟩
    have hok : ok = true := by
      have := adBrowse_ok st σ.browser env.browseEnv hnav hscr
      rwa [hB] at this
    subst hok
    by_cases hr : ready σ.ctrl = true
    · rcases hV : scrape_vault st σ.ctrl br1 env.scrapeEnv with ⟨out, br3, evV⟩
      refine ⟨evB ++ Ev.callScrape :: evV, ?_⟩
      simp [runStep, runTail, h, h1, hB, hr, hV, hmod, handleLoopError,
        browser_restart, ctrlReset, initCtrl]
    · have hr2 : ready σ.ctrl = false := by simpa using hr
      rcases hS : setup st σ.ctrl br1 env.setupEnv with ⟨okS, c2, br2, evS⟩
      rcases hV : scrape_vault st c2 br2 env.scrapeEnv with ⟨out, br3, evV⟩
      refine ⟨(evB ++ evS) ++ Ev.callScrape :: evV, ?_⟩
      simp [runStep, runTail, h, h1, hB, hr2, hS, hV, hmod, handleLoopError,
        browser_restart, ctrlReset, initCtrl]

/-- Witness for C5 at concrete inputs: an Exception injected while browsing
is handled by restarting the browser and resetting the controller. -/
theorem C5_run_loop_error_recovery_witness :
    runStep defaultSettings ⟨3, ⟨some "u", true, true⟩, ⟨some 45⟩⟩
        ⟨false, some .browse,
         ⟨"https://a.com", .ok, fun _ => .returns .vNone, fun _ => 1, 0⟩,
         ⟨.readFailure, ⟨.ok, .returns .vNone⟩, ⟨.ok, false, .noIframe⟩,
          ⟨0, fun j => j, fun _ => ⟨.ok, .returns .vNone⟩⟩⟩,
         ⟨.ok, false, ⟨none, none, none⟩⟩,
         ⟨true, 45, ⟨.readFailure, ⟨.ok, .returns .vNone⟩, ⟨.ok, false, .noIframe⟩,
          ⟨0, fun j => j, fun _ => ⟨.ok, .returns .vNone⟩⟩⟩⟩,
         true, 45⟩ =
      (some ⟨4, initCtrl, ⟨some 45⟩⟩,
       [Ev.handledError, Ev.browserRestart, Ev.ctrlReset]) := by
  have h := (C5_run_loop_error_recovery defaultSettings
      ⟨3, ⟨some "u", true, true⟩, ⟨some 45⟩⟩
      ⟨false, some .browse,
       ⟨"https://a.com", .ok, fun _ => .returns .vNone, fun _ => 1, 0⟩,
       ⟨.readFailure, ⟨.ok, .returns .vNone⟩, ⟨.ok, false, .noIframe⟩,
        ⟨0, fun j => j, fun _ => ⟨.ok, .returns .vNone⟩⟩⟩,
       ⟨.ok, false, ⟨none, none, none⟩⟩,
       ⟨true, 45, ⟨.readFailure, ⟨.ok, .returns .vNone⟩, ⟨.ok, false, .noIframe⟩,
        ⟨0, fun j => j, fun _ => ⟨.ok, .returns .vNone⟩⟩⟩⟩,
       true, 45⟩).2.2.2.1 rfl rfl
  exact h

/-- C6: with no error in the session, the loop performs the scheduled
restart exactly when the incremented session counter is a multiple of
session_restart_interval; at that session the browser is restarted, the
controller state is reset, and (the discovery succeeding) UUID discovery,
activation and filter waiting are re-run before the next session, the
resulting controller and browser being those produced by _setup from the
reset state; at every other session no restart or reset happens. -/
theorem C6_scheduled_restart (st : Settings) (σ : OrchState) (env : StepEnv)
    (hsig : env.signal = false) (hinj : env.inject = none)
    (hnav : env.browseEnv.nav ≠ .raises)
    (hscr : ∀ j, env.browseEnv.scrolls j ≠ .raises)
    (hdisc : (discover_uuid st initCtrl
        (if env.restartEnv.bootOk then ⟨some env.restartEnv.freshT⟩ else ⟨none⟩)
        env.restartEnv.setupEnv.prefs env.restartEnv.setupEnv.dbg).1 = true) :
    ∃ σ2 evs, runStep st σ env = (some σ2, evs) ∧
      σ2.sessionCount = σ.sessionCount + 1 ∧
      ((σ.sessionCount + 1) % st.session_restart_interval ≠ 0 →
         Ev.browserRestart ∉ evs ∧ Ev.ctrlReset ∉ evs) ∧
      ((σ.sessionCount + 1) % st.session_restart_interval = 0 →
         (∃ pre e1 e2 e3,
            evs = pre ++ Ev.browserRestart :: Ev.ctrlReset :: Ev.callDiscover ::
              (e1 ++ Ev.callActivate :: (e2 ++ Ev.callWait :: e3))) ∧
         σ2.ctrl = (setup st initCtrl
             (if env.restartEnv.bootOk then ⟨some env.restartEnv.freshT⟩ else ⟨none⟩)
             env.restartEnv.setupEnv).2.1 ∧
         σ2.browser = (setup st initCtrl
             (if env.restartEnv.bootOk then ⟨some env.restartEnv.freshT⟩ else ⟨none⟩)
             env.restartEnv.setupEnv).2.2.1) := by
  rcases hB : adBrowse st σ.browser env.browseEnv with ⟨ok, br1, evB⟩
  have hok : ok = true := by
    have := adBrowse_ok st σ.browser env.browseEnv hnav hscr
    rwa [hB] at this
  subst hok
  have hevB : noLoopEvents evB := by
    have := noloop_adBrowse st σ.browser env.browseEnv
    rwa [hB] at this
  -- the controller and events after the optional in-loop setup
  rcases hS : setup st σ.ctrl br1 env.setupEnv with ⟨okS, c2s, br2s, evSs⟩
  have hevSs : noLoopEvents evSs := by
    have := noloop_setup st σ.ctrl br1 env.setupEnv
    rwa [hS] at this
  have hmain : ∀ (c2 : ControllerState) (br2 : Browser) (evs2 : List Ev),
      noLoopEvents evs2 →
      ∃ σ2 evs, runTail st env (σ.sessionCount + 1) c2 br2 evs2 = (some σ2, evs) ∧
        σ2.sessionCount = σ.sessionCount + 1 ∧
        ((σ.sessionCount + 1) % st.session_restart_interval ≠ 0 →
           Ev.browserRestart ∉ evs ∧ Ev.ctrlReset ∉ evs) ∧
        ((σ.sessionCount + 1) % st.session_restart_interval = 0 →
           (∃ pre e1 e2 e3,
              evs = pre ++ Ev.browserRestart :: Ev.ctrlReset :: Ev.callDiscover ::
                (e1 ++ Ev.callActivate :: (e2 ++ Ev.callWait :: e3))) ∧
           σ2.ctrl = (setup st initCtrl
               (if env.restartEnv.bootOk then ⟨some env.restartEnv.freshT⟩ else ⟨none⟩)
               env.restartEnv.setupEnv).2.1 ∧
           σ2.browser = (setup st initCtrl
               (if env.restartEnv.bootOk then ⟨some env.restartEnv.freshT⟩ else ⟨none⟩)
               env.restartEnv.setupEnv).2.2.1) := by
    intro c2 br2 evs2 hevs2
    rcases hV : scrape_vault st c2 br2 env.scrapeEnv with ⟨out, br3, evV⟩
    have hevV : noLoopEvents evV := by
      have := noloop_scrape st c2 br2 env.scrapeEnv
      rwa [hV] at this
    by_cases hmod : (σ.sessionCount + 1) % st.session_restart_interval = 0
    · -- scheduled restart session
      rcases hD : discover_uuid st initCtrl
          (if env.restartEnv.bootOk then ⟨some env.restartEnv.freshT⟩ else ⟨none⟩)
          env.restartEnv.setupEnv.prefs env.restartEnv.setupEnv.dbg
        with ⟨okD, cD, brD, eD⟩
      have hokD : okD = true := by rw [hD] at hdisc; exact hdisc
      subst hokD
      rcases hA : activate st cD brD env.restartEnv.setupEnv.act
        with ⟨okA, cA, brA, eA⟩
      rcases hW : wait_for_filters st cA brA env.restartEnv.setupEnv.wait
        with ⟨okW, cW, brW, eW⟩
      have hsetup : setup st initCtrl
          (if env.restartEnv.bootOk then ⟨some env.restartEnv.freshT⟩ else ⟨none⟩)
          env.restartEnv.setupEnv =
          (true, cW, brW,
           Ev.callDiscover :: eD ++ Ev.callActivate :: eA ++ Ev.callWait :: eW) := by
        unfold setup
        simp only [hD, hA, hW]
      have hrestart : adRestart st c2 br3 env.restartEnv =
          (cW, brW, [Ev.browserRestart] ++ Ev.ctrlReset ::
            (Ev.callDiscover :: eD ++ Ev.callActivate :: eA ++ Ev.callWait :: eW)) := by
        simp [adRestart, browser_restart, ctrlReset, hsetup]
      refine ⟨⟨σ.sessionCount + 1, cW, brW⟩,
        evs2 ++ Ev.callScrape :: evV ++ ([Ev.browserRestart] ++ Ev.ctrlReset ::
          (Ev.callDiscover :: eD ++ Ev.callActivate :: eA ++ Ev.callWait :: eW)), ?_, rfl, ?_, ?_⟩
      · simp [runTail, hinj, hmod, hV, hrestart]
      · intro hne; exact absurd hmod hne
      · intro _
        refine ⟨⟨evs2 ++ Ev.callScrape :: evV, eD, eA, eW, ?_⟩, ?_, ?_⟩
        · simp
        · rw [hsetup]
        · rw [hsetup]
    · -- ordinary session: no restart, no reset
      refine ⟨⟨σ.sessionCount + 1, c2, br3⟩, evs2 ++ Ev.callScrape :: evV,
        ?_, rfl, ?_, ?_⟩
      · simp [runTail, hinj, hmod, hV]
      · intro _
        obtain ⟨a1, a2, a3⟩ := hevs2
        obtain ⟨b1, b2, b3⟩ := hevV
        constructor <;> simp [a1, a2, b1, b2]
      · intro hcontra; exact absurd hcontra hmod
  by_cases hr : ready σ.ctrl = true
  · obtain ⟨σ2, evs, h1, h2, h3, h4⟩ := hmain σ.ctrl br1 evB hevB
    refine ⟨σ2, evs, ?_, h2, h3, h4⟩
    simpa [runStep, hsig, hinj, hB, hr] using h1
  · have hr2 : ready σ.ctrl = false := by simpa using hr
    obtain ⟨σ2, evs, h1, h2, h3, h4⟩ := hmain c2s br2s (evB ++ evSs)
      (noLoopEvents_append hevB hevSs)
    refine ⟨σ2, evs, ?_, h2, h3, h4⟩
    simpa [runStep, hsig, hinj, hB, hr2, hS] using h1

/-- Witness for C6 at concrete inputs: session 24 completing makes counter
25, a multiple of the default restart interval, and triggers the restart. -/
theorem C6_scheduled_restart_witness :
    ∃ σ2 evs, runStep defaultSettings ⟨24, ⟨some "u", true, true⟩, ⟨some 45⟩⟩
        ⟨false, none,
         ⟨"https://a.com", .ok, fun _ => .returns .vNone, fun _ => 1, 0⟩,
         ⟨.uuidMap [(EXTENSION_ID, "u")], ⟨.ok, .returns .vNone⟩,
          ⟨.ok, false, .noIframe⟩, ⟨0, fun j => j, fun _ => ⟨.ok, .returns .vNone⟩⟩⟩,
         ⟨.ok, false, ⟨none, none, none⟩⟩,
         ⟨true, 300, ⟨.uuidMap [(EXTENSION_ID, "u")], ⟨.ok, .returns .vNone⟩,
          ⟨.ok, false, .noIframe⟩, ⟨0, fun j => j, fun _ => ⟨.ok, .returns .vNone⟩⟩⟩⟩,
         true, 45⟩ = (some σ2, evs) ∧
      σ2.sessionCount = 25 ∧
      (∃ pre e1 e2 e3,
         evs = pre ++ Ev.browserRestart :: Ev.ctrlReset :: Ev.callDiscover ::
           (e1 ++ Ev.callActivate :: (e2 ++ Ev.callWait :: e3))) := by
  have h := C6_scheduled_restart defaultSettings ⟨24, ⟨some "u", true, true⟩, ⟨some 45⟩⟩
      ⟨false, none,
       ⟨"https://a.com", .ok, fun _ => .returns .vNone, fun _ => 1, 0⟩,
       ⟨.uuidMap [(EXTENSION_ID, "u")], ⟨.ok, .returns .vNone⟩,
        ⟨.ok, false, .noIframe⟩, ⟨0, fun j => j, fun _ => ⟨.ok, .returns .vNone⟩⟩⟩,
       ⟨.ok, false, ⟨none, none, none⟩⟩,
       ⟨true, 300, ⟨.uuidMap [(EXTENSION_ID, "u")], ⟨.ok, .returns .vNone⟩,
        ⟨.ok, false, .noIframe⟩, ⟨0, fun j => j, fun _ => ⟨.ok, .returns .vNone⟩⟩⟩⟩,
       true, 45⟩ rfl rfl (by decide) (by intro j; simp) (by decide)
  obtain ⟨σ2, evs, h1, h2, h3, h4⟩ := h
  exact ⟨σ2, evs, h1, by rw [h2], (h4 (by decide)).1⟩

end AdInfinitum
